import Mathlib

/-!
Shallow embedding of the GPU telemetry core of system-info-exporter
(src/metrics.rs, src/config.rs): nvidia-smi output parsing, the
last-known-good GPU cache, the used-device count and the Prometheus
text formatter, together with proofs of the spec claims.

Rust strings are modelled as List Char; u32 / u64 values as Nat with
explicit bounds (a failed bounds check models a parse overflow error,
and release-mode wrapping multiplication is modelled with an explicit
reduction mod 2 ^ 64); HashMap String u32 as an insertion-ordered
association list (Rust leaves the iteration order unspecified; one
fixed order per map value is chosen, which is what a single HashMap
instance also guarantees); Instant as a Nat timestamp; the RwLock
around the cache as explicit state passing (the poisoned-lock branches
of the source are unreachable in the absence of panics and are not
modelled).
-/

set_option maxRecDepth 100000

namespace SysInfo

/-- ASCII whitespace as recognized by the trimming in the source
(models char::is_whitespace restricted to the characters that can
occur around nvidia-smi CSV fields). -/
def isWsChar (c : Char) : Bool :=
  c = ' ' || c = '\t' || c = '\n' || c = '\r'

/-- Drop leading whitespace (left half of str::trim). -/
def trimLeft : List Char → List Char
  | [] => []
  | c :: r => if isWsChar c then trimLeft r else c :: r

/-- str::trim: drop leading and trailing whitespace. -/
def trim (l : List Char) : List Char :=
  (trimLeft ((trimLeft l).reverse)).reverse

/-- str::split on a single separator character: "a,,b" gives
["a", "", "b"], "" gives [""]. -/
def splitOnChar (sep : Char) : List Char → List (List Char)
  | [] => [[]]
  | c :: rest =>
    match splitOnChar sep rest with
    | [] => if c = sep then [[], []] else [[c]]
    | h :: t => if c = sep then [] :: h :: t else (c :: h) :: t

/-- Boolean prefix test: startsWith l pat is true when pat is a
prefix of l (str::starts_with). -/
def startsWith : List Char → List Char → Bool
  | _, [] => true
  | [], _ :: _ => false
  | c :: r, p :: ps => c = p && startsWith r ps

/-- Boolean substring test (str::contains). -/
def containsSub (pat : List Char) : List Char → Bool
  | [] => pat.isEmpty
  | c :: r => startsWith (c :: r) pat || containsSub pat r

/-- Left-to-right non-overlapping replacement, fuel-indexed so that the
recursion is structural; fuel at least the length of the input makes
the fuel bound unreachable. Models str::replace for a nonempty
pattern. -/
def replaceSubAux (pat rep : List Char) : Nat → List Char → List Char
  | _, [] => []
  | 0, l => l
  | fuel + 1, c :: rest =>
    if startsWith (c :: rest) pat && !pat.isEmpty then
      rep ++ replaceSubAux pat rep fuel (rest.drop (pat.length - 1))
    else
      c :: replaceSubAux pat rep fuel rest

/-- str::replace pat rep on l (each step consumes at least one
character, so fuel l.length suffices). -/
def replaceSub (l pat rep : List Char) : List Char :=
  replaceSubAux pat rep l.length l

/-- Drop one trailing carriage return, as Rust str::lines does on each
line. -/
def stripCr (l : List Char) : List Char :=
  if l.getLast? = some '\r' then l.dropLast else l

/-- str::lines: split on a newline character, drop the final empty
piece produced by a trailing newline, strip one trailing carriage
return per line. -/
def linesOf (l : List Char) : List (List Char) :=
  (if (splitOnChar '\n' l).getLast? = some [] then
    (splitOnChar '\n' l).dropLast
   else splitOnChar '\n' l).map stripCr

/-- Decimal digit test. -/
def isDigitChar (c : Char) : Bool :=
  '0' ≤ c && c ≤ '9'

/-- Numeric value of a digit string (valid only on all-digit input). -/
def digitsVal (l : List Char) : Nat :=
  l.foldl (fun acc c => acc * 10 + (c.toNat - '0'.toNat)) 0

/-- Rust unsigned integer parsing (u32 / u64 via the width argument):
an optional leading plus sign, then at least one digit, and the value
must fit in the type, else Err. -/
def parseUInt (width : Nat) (l : List Char) : Option Nat :=
  let l' := match l with
    | '+' :: r => r
    | _ => l
  if l'.isEmpty || !(l'.all isDigitChar) then none
  else if digitsVal l' < 2 ^ width then some (digitsVal l') else none

/-- Longest digit run at the front of the list, with the rest. -/
def takeDigits : List Char → List Char × List Char
  | [] => ([], [])
  | c :: r =>
    if isDigitChar c then
      let p := takeDigits r
      (c :: p.1, p.2)
    else ([], c :: r)

/-- Modelled from the plain-decimal fragment of the Rust f64 grammar:
optional sign, digits, optional decimal point and fraction digits,
with at least one digit overall. Returns the sign and the integer
part, i.e. the value truncated toward zero, which is all the source
uses (the exponent / inf / nan forms of the full grammar never occur
in nvidia-smi power fields and are not modelled). -/
def parseDecimal (l : List Char) : Option (Bool × Nat) :=
  let sgn : Bool × List Char := match l with
    | '-' :: r => (true, r)
    | '+' :: r => (false, r)
    | _ => (false, l)
  let ip := takeDigits sgn.2
  match ip.2 with
  | [] => if ip.1.isEmpty then none else some (sgn.1, digitsVal ip.1)
  | '.' :: fr =>
    if fr.all isDigitChar && !(ip.1.isEmpty && fr.isEmpty) then
      some (sgn.1, digitsVal ip.1)
    else none
  | _ => none

/-- The sentinel check shared by the numeric field parsers of
src/metrics.rs: the value contains "N/A" or a bracket. -/
def hasSentinel (s : List Char) : Bool :=
  containsSub ("N/A".data) s || containsSub ("[".data) s

/-- The " MiB" / " MB" stripping of parse_mib_value. -/
def mibStripped (s : List Char) : List Char :=
  replaceSub (replaceSub (trim s) (" MiB".data) []) (" MB".data) []

/-- The " %" / "%" stripping of parse_percent_value. -/
def percentStripped (s : List Char) : List Char :=
  replaceSub (replaceSub (trim s) (" %".data) []) ("%".data) []

/-- The " W" stripping of parse_watts_value. -/
def wattsStripped (s : List Char) : List Char :=
  replaceSub (trim s) (" W".data) []

/-- parse_mib_value from src/metrics.rs: trim, strip a " MiB" / " MB"
suffix, parse as u64 with 0 on failure. -/
def parse_mib_value (s : List Char) : Nat :=
  (parseUInt 64 (mibStripped s)).getD 0

/-- parse_percent_value from src/metrics.rs: trim, strip " %" and "%",
treat a value containing "N/A" or a bracket as 0, else parse as u32
with 0 on failure. -/
def parse_percent_value (s : List Char) : Nat :=
  if hasSentinel (percentStripped s) then 0
  else (parseUInt 32 (percentStripped s)).getD 0

/-- parse_int_value from src/metrics.rs: trim, treat a value containing
"N/A" or a bracket as 0, else parse as u32 with 0 on failure. -/
def parse_int_value (s : List Char) : Nat :=
  if hasSentinel (trim s) then 0
  else (parseUInt 32 (trim s)).getD 0

/-- parse_watts_value from src/metrics.rs: trim, strip " W", treat a
value containing "N/A" or a bracket as 0, else parse as f64 and cast
to u32 (Rust as-cast: truncate toward zero, saturate into the u32
range, so every negative value gives 0), with 0 on parse failure. -/
def parse_watts_value (s : List Char) : Nat :=
  if hasSentinel (wattsStripped s) then 0
  else
    match parseDecimal (wattsStripped s) with
    | some p => if p.1 then 0 else min p.2 (2 ^ 32 - 1)
    | none => 0

/-- GpuInfo from src/metrics.rs (index is u32, the memory fields u64,
the remaining numeric fields u32, all as Nat). -/
structure GpuInfo where
  index : Nat
  name : List Char
  uuid : List Char
  memory_total_mb : Nat
  memory_used_mb : Nat
  memory_free_mb : Nat
  utilization_percent : Nat
  temperature_celsius : Nat
  power_draw_watts : Nat
  power_limit_watts : Nat
deriving Repr, DecidableEq

/-- One iteration of the parse_nvidia_smi_output loop: trim the line,
skip it when empty, split on commas and trim each field, skip the line
when it has fewer than ten fields, else build the record, numeric
fields defaulting to zero on failure. -/
def lineFields (raw : List Char) : List (List Char) :=
  (splitOnChar ',' (trim raw)).map trim

def parseLine (raw : List Char) : Option GpuInfo :=
  if (trim raw).isEmpty then none
  else if (lineFields raw).length < 10 then none
  else some {
    index := (parseUInt 32 ((lineFields raw).getD 0 [])).getD 0
    name := (lineFields raw).getD 1 []
    uuid := (lineFields raw).getD 2 []
    memory_total_mb := parse_mib_value ((lineFields raw).getD 3 [])
    memory_used_mb := parse_mib_value ((lineFields raw).getD 4 [])
    memory_free_mb := parse_mib_value ((lineFields raw).getD 5 [])
    utilization_percent := parse_percent_value ((lineFields raw).getD 6 [])
    temperature_celsius := parse_int_value ((lineFields raw).getD 7 [])
    power_draw_watts := parse_watts_value ((lineFields raw).getD 8 [])
    power_limit_watts := parse_watts_value ((lineFields raw).getD 9 []) }

/-- parse_nvidia_smi_output from src/metrics.rs: parse each line,
skipped lines contributing nothing. -/
def parse_nvidia_smi_output (output : List Char) : List GpuInfo :=
  (linesOf output).filterMap parseLine

/-- Trimmed nonempty lines of the compute-apps query output: the set of
uuids of GPUs with running compute processes (the HashSet of the source
is modelled by the list itself; only membership is used). -/
def usedUuids (output : List Char) : List (List Char) :=
  ((linesOf output).map trim).filter (fun u => !u.isEmpty)

/-- get_gpu_used_count from src/metrics.rs: the second query's result is
passed in explicitly (some stdout on success, none on any failure).
On success, count the devices whose uuid occurs in the result set; on
failure return 0. -/
def get_gpu_used_count (gpu_devices : List GpuInfo)
    (queryResult : Option (List Char)) : Nat :=
  match queryResult with
  | some output =>
    (gpu_devices.filter (fun g => (usedUuids output).contains g.uuid)).length
  | none => 0

/-- Add one occurrence of a name to the association list modelling the
HashMap entry(name).or_insert(0) += 1 step. -/
def bumpCount (name : List Char) :
    List (List Char × Nat) → List (List Char × Nat)
  | [] => [(name, 1)]
  | (k, v) :: r =>
    if k = name then (k, v + 1) :: r else (k, v) :: bumpCount name r

/-- The gpu_type_counts map of collect_gpu_info: device name to number
of devices with that name, in first-occurrence order. -/
def typeCounts (devices : List GpuInfo) : List (List Char × Nat) :=
  devices.foldl (fun m g => bumpCount g.name m) []

/-- GpuCache from src/metrics.rs; last_update is an Instant, modelled
as a Nat timestamp. -/
structure GpuCache where
  devices : List GpuInfo
  type_counts : List (List Char × Nat)
  used_count : Nat
  last_update : Nat
  last_success : Bool
deriving Repr, DecidableEq

/-- GpuCache::default(): empty, unsuccessful, stamped with the current
instant. -/
def GpuCache.init (now : Nat) : GpuCache :=
  { devices := [], type_counts := [], used_count := 0,
    last_update := now, last_success := false }

/-- get_cached_gpu_info from src/metrics.rs: a read-only cache access;
empty cache gives the empty result, otherwise the cached triple is
returned as is (the staleness comparison only selects a log message
and the poisoned-lock branch is unreachable without panics). -/
def get_cached_gpu_info (cache : GpuCache) :
    List GpuInfo × List (List Char × Nat) × Nat :=
  if cache.devices.isEmpty then ([], [], 0)
  else (cache.devices, cache.type_counts, cache.used_count)

/-- collect_gpu_info from src/metrics.rs as one acquisition cycle over
explicit inputs: hardware presence, nvidia-smi discovery, the primary
device query result (some stdout / none for any executor failure), the
secondary compute-apps query result, and the current instant. Returns
the served triple and the cache after the cycle. The cache is written
only on the branch where the primary query succeeded and parsed to at
least one record. -/
def collect_gpu_info (hasGpu smiFound : Bool)
    (primary workload : Option (List Char)) (now : Nat)
    (cache : GpuCache) :
    (List GpuInfo × List (List Char × Nat) × Nat) × GpuCache :=
  if !hasGpu then (([], [], 0), cache)
  else if !smiFound then (([], [], 0), cache)
  else
    match primary with
    | some output =>
      let gpu_devices := parse_nvidia_smi_output output
      if gpu_devices.isEmpty then (get_cached_gpu_info cache, cache)
      else
        let tc := typeCounts gpu_devices
        let used := get_gpu_used_count gpu_devices workload
        ((gpu_devices, tc, used),
         { devices := gpu_devices, type_counts := tc, used_count := used,
           last_update := now, last_success := true })
    | none => (get_cached_gpu_info cache, cache)

/-- Digit to character. The catch-all keeps the function total; it is
only applied to values below ten. -/
def digitChar : Nat → Char
  | 0 => '0'
  | 1 => '1'
  | 2 => '2'
  | 3 => '3'
  | 4 => '4'
  | 5 => '5'
  | 6 => '6'
  | 7 => '7'
  | 8 => '8'
  | 9 => '9'
  | _ + 10 => '0'

/-- Digit accumulation for decimal display, fuel-indexed to keep the
recursion structural; fuel at least the number of digits (so fuel n
for value n) makes the fuel bound unreachable. -/
def natToCharsAux : Nat → Nat → List Char → List Char
  | 0, _, acc => acc
  | fuel + 1, n, acc =>
    if n = 0 then acc
    else natToCharsAux fuel (n / 10) (digitChar (n % 10) :: acc)

/-- Decimal display of an unsigned integer, as the Rust Display
implementations for u32 / u64 / usize produce it. -/
def natToChars (n : Nat) : List Char :=
  if n = 0 then ['0'] else natToCharsAux n n []

/-- Two-digit zero-padded display of a value below one hundred. -/
def pad2 (n : Nat) : List Char :=
  if n < 10 then '0' :: natToChars n else natToChars n

/-- Modelled Rust float formatting with precision two on a rational
value: the value rounded to two decimal places (ties to even, as the
correctly rounding formatter does), rendered with a sign, the integer
part and exactly two fraction digits. -/
def fmt2 (q : Rat) : List Char :=
  let a : Rat := |q|
  let scaled : Rat := a * 100
  let fl : Nat := scaled.floor.toNat
  let frac : Rat := scaled - (fl : Rat)
  let n : Nat :=
    if frac > 1 / 2 then fl + 1
    else if frac < 1 / 2 then fl
    else if fl % 2 = 0 then fl else fl + 1
  (if q < 0 then ['-'] else []) ++ natToChars (n / 100) ++ '.' :: pad2 (n % 100)

/-- MetricsEnabled from src/config.rs: the per-metric enable matrix. -/
structure MetricsEnabled where
  node_info : Bool
  node_uptime : Bool
  cpu_cores : Bool
  cpu_threads : Bool
  cpu_usage : Bool
  cpu_used_cores : Bool
  memory_total : Bool
  memory_used : Bool
  memory_available : Bool
  memory_usage : Bool
  gpu_count : Bool
  gpu_used_count : Bool
  gpu_type_count : Bool
  gpu_memory_total : Bool
  gpu_memory_used : Bool
  gpu_memory_free : Bool
  gpu_utilization : Bool
  gpu_temperature : Bool
  gpu_power_draw : Bool
  gpu_power_limit : Bool
deriving Repr, DecidableEq

/-- MetricsEnabled::default() from src/config.rs: everything on. -/
def MetricsEnabled.allOn : MetricsEnabled :=
  { node_info := true, node_uptime := true, cpu_cores := true,
    cpu_threads := true, cpu_usage := true, cpu_used_cores := true,
    memory_total := true, memory_used := true, memory_available := true,
    memory_usage := true, gpu_count := true, gpu_used_count := true,
    gpu_type_count := true, gpu_memory_total := true,
    gpu_memory_used := true, gpu_memory_free := true,
    gpu_utilization := true, gpu_temperature := true,
    gpu_power_draw := true, gpu_power_limit := true }

/-- NodeMetrics from src/metrics.rs. The f32 fields are modelled as
rationals (every f32 value is one); gpu_type_counts as in the cache
model. -/
structure NodeMetrics where
  hostname : List Char
  node : List Char
  os_name : List Char
  os_version : List Char
  kernel_version : List Char
  uptime_secs : Nat
  cpu_cores : Nat
  cpu_threads : Nat
  cpu_model : List Char
  cpu_usage_percent : Rat
  cpu_used_cores : Rat
  memory_total_bytes : Nat
  memory_used_bytes : Nat
  memory_available_bytes : Nat
  memory_usage_percent : Rat
  gpu_count : Nat
  gpu_used_count : Nat
  gpu_devices : List GpuInfo
  gpu_type_counts : List (List Char × Nat)

/-- escape_label_value from src/metrics.rs: replace backslash, double
quote and newline, in that order. -/
def escape_label_value (s : List Char) : List Char :=
  replaceSub
    (replaceSub (replaceSub s ("\\".data) ("\\\\".data))
      ("\"".data) ("\\\"".data))
    ("\n".data) ("\\n".data)

/-- A one-label sample line (without its trailing newline): the family
literal including node=", then the node value, then "} and the
rendered value. -/
def simpleChunk (lit node v : List Char) : List Char :=
  lit ++ (node ++ (("\"\x7d ".data) ++ v))

/-- The hw_node_info sample line: node, os, os_version and kernel are
embedded verbatim, cpu_model through escape_label_value, exactly as in
the source. -/
def nodeInfoChunk (m : NodeMetrics) : List Char :=
  ("hw_node_info\x7bnode=\"".data) ++ (m.node ++ (("\",os=\"".data) ++
    (m.os_name ++ (("\",os_version=\"".data) ++ (m.os_version ++
    (("\",kernel=\"".data) ++ (m.kernel_version ++
    (("\",cpu_model=\"".data) ++ (escape_label_value m.cpu_model ++
    ("\"\x7d 1".data))))))))))

/-- One hw_gpu_type_count sample line: the type name is escaped. -/
def typeCountChunk (node : List Char) (kv : List Char × Nat) : List Char :=
  ("hw_gpu_type_count\x7bnode=\"".data) ++ (node ++
    (("\",gpu_type=\"".data) ++ (escape_label_value kv.1 ++
    (("\"\x7d ".data) ++ natToChars kv.2))))

/-- One per-device sample line: famLit is the family name with
"{node=" already appended; gpu_name is escaped, gpu_uuid embedded
verbatim, exactly as in the source. -/
def deviceChunk (famLit node : List Char) (g : GpuInfo) (v : Nat) :
    List Char :=
  famLit ++ (node ++ (("\",gpu_index=\"".data) ++ (natToChars g.index ++
    (("\",gpu_name=\"".data) ++ (escape_label_value g.name ++
    (("\",gpu_uuid=\"".data) ++ (g.uuid ++ (("\"\x7d ".data) ++
    natToChars v))))))))

/-- A single-sample section guarded by its enable flag: HELP line,
TYPE line, one sample line. -/
def hostSection (b : Bool) (help ty lit node v : List Char) :
    List (List Char) :=
  if b then [help, ty, simpleChunk lit node v] else []

/-- The hw_gpu_type_count section guarded by its enable flag: HELP
line, TYPE line, one sample line per map entry. -/
def typeSection (b : Bool) (node : List Char)
    (tcs : List (List Char × Nat)) : List (List Char) :=
  if b then
    ("# HELP hw_gpu_type_count Number of GPUs by type per node".data) ::
    ("# TYPE hw_gpu_type_count gauge".data) ::
    tcs.map (typeCountChunk node)
  else []

/-- A per-device section guarded by its enable flag: HELP line, TYPE
line, one sample line per device. -/
def deviceSection (b : Bool) (help ty famLit node : List Char)
    (devices : List GpuInfo) (val : GpuInfo → Nat) : List (List Char) :=
  if b then
    help :: ty :: devices.map (fun g => deviceChunk famLit node g (val g))
  else []

/-- The lines pushed by NodeMetrics::to_prometheus, in push order, each
without its trailing newline (every push_str of the source appends
exactly one newline-terminated line). The memory byte values carry the
release-mode wrapping u64 multiplication by 1024 * 1024 as an explicit
reduction mod 2 ^ 64. -/
def promChunks (m : NodeMetrics) (e : MetricsEnabled) :
    List (List Char) :=
  (if e.node_info then
    [("# HELP hw_node_info Node hardware information".data),
     ("# TYPE hw_node_info gauge".data),
     nodeInfoChunk m]
   else []) ++
  (hostSection e.node_uptime
    ("# HELP hw_node_uptime_seconds Node uptime in seconds".data)
    ("# TYPE hw_node_uptime_seconds counter".data)
    ("hw_node_uptime_seconds\x7bnode=\"".data) m.node
    (natToChars m.uptime_secs) ++
  (hostSection e.cpu_cores
    ("# HELP hw_cpu_cores Number of physical CPU cores".data)
    ("# TYPE hw_cpu_cores gauge".data)
    ("hw_cpu_cores\x7bnode=\"".data) m.node (natToChars m.cpu_cores) ++
  (hostSection e.cpu_threads
    ("# HELP hw_cpu_threads Number of CPU threads".data)
    ("# TYPE hw_cpu_threads gauge".data)
    ("hw_cpu_threads\x7bnode=\"".data) m.node (natToChars m.cpu_threads) ++
  (hostSection e.cpu_usage
    ("# HELP hw_cpu_usage_percent CPU usage percentage".data)
    ("# TYPE hw_cpu_usage_percent gauge".data)
    ("hw_cpu_usage_percent\x7bnode=\"".data) m.node
    (fmt2 m.cpu_usage_percent) ++
  (hostSection e.cpu_used_cores
    ("# HELP hw_cpu_used_cores Number of CPU cores currently in use".data)
    ("# TYPE hw_cpu_used_cores gauge".data)
    ("hw_cpu_used_cores\x7bnode=\"".data) m.node
    (fmt2 m.cpu_used_cores) ++
  (hostSection e.memory_total
    ("# HELP hw_memory_total_bytes Total memory in bytes".data)
    ("# TYPE hw_memory_total_bytes gauge".data)
    ("hw_memory_total_bytes\x7bnode=\"".data) m.node
    (natToChars m.memory_total_bytes) ++
  (hostSection e.memory_used
    ("# HELP hw_memory_used_bytes Used memory in bytes".data)
    ("# TYPE hw_memory_used_bytes gauge".data)
    ("hw_memory_used_bytes\x7bnode=\"".data) m.node
    (natToChars m.memory_used_bytes) ++
  (hostSection e.memory_available
    ("# HELP hw_memory_available_bytes Available memory in bytes".data)
    ("# TYPE hw_memory_available_bytes gauge".data)
    ("hw_memory_available_bytes\x7bnode=\"".data) m.node
    (natToChars m.memory_available_bytes) ++
  (hostSection e.memory_usage
    ("# HELP hw_memory_usage_percent Memory usage percentage".data)
    ("# TYPE hw_memory_usage_percent gauge".data)
    ("hw_memory_usage_percent\x7bnode=\"".data) m.node
    (fmt2 m.memory_usage_percent) ++
  ((if m.gpu_count > 0 then
    hostSection e.gpu_count
      ("# HELP hw_gpu_count Total number of GPUs per node".data)
      ("# TYPE hw_gpu_count gauge".data)
      ("hw_gpu_count\x7bnode=\"".data) m.node (natToChars m.gpu_count) ++
    (hostSection e.gpu_used_count
      ("# HELP hw_gpu_used_count Number of GPUs currently in use per node".data)
      ("# TYPE hw_gpu_used_count gauge".data)
      ("hw_gpu_used_count\x7bnode=\"".data) m.node
      (natToChars m.gpu_used_count) ++
    typeSection e.gpu_type_count m.node m.gpu_type_counts)
   else []) ++
  (if !m.gpu_devices.isEmpty then
    deviceSection e.gpu_memory_total
      ("# HELP hw_gpu_memory_total_bytes GPU total memory in bytes".data)
      ("# TYPE hw_gpu_memory_total_bytes gauge".data)
      ("hw_gpu_memory_total_bytes\x7bnode=\"".data) m.node m.gpu_devices
      (fun g => g.memory_total_mb * 1024 * 1024 % 2 ^ 64) ++
    (deviceSection e.gpu_memory_used
      ("# HELP hw_gpu_memory_used_bytes GPU used memory in bytes".data)
      ("# TYPE hw_gpu_memory_used_bytes gauge".data)
      ("hw_gpu_memory_used_bytes\x7bnode=\"".data) m.node m.gpu_devices
      (fun g => g.memory_used_mb * 1024 * 1024 % 2 ^ 64) ++
    (deviceSection e.gpu_memory_free
      ("# HELP hw_gpu_memory_free_bytes GPU free memory in bytes".data)
      ("# TYPE hw_gpu_memory_free_bytes gauge".data)
      ("hw_gpu_memory_free_bytes\x7bnode=\"".data) m.node m.gpu_devices
      (fun g => g.memory_free_mb * 1024 * 1024 % 2 ^ 64) ++
    (deviceSection e.gpu_utilization
      ("# HELP hw_gpu_utilization_percent GPU utilization percentage".data)
      ("# TYPE hw_gpu_utilization_percent gauge".data)
      ("hw_gpu_utilization_percent\x7bnode=\"".data) m.node m.gpu_devices
      (fun g => g.utilization_percent) ++
    (deviceSection e.gpu_temperature
      ("# HELP hw_gpu_temperature_celsius GPU temperature in Celsius".data)
      ("# TYPE hw_gpu_temperature_celsius gauge".data)
      ("hw_gpu_temperature_celsius\x7bnode=\"".data) m.node m.gpu_devices
      (fun g => g.temperature_celsius) ++
    (deviceSection e.gpu_power_draw
      ("# HELP hw_gpu_power_draw_watts GPU power draw in watts".data)
      ("# TYPE hw_gpu_power_draw_watts gauge".data)
      ("hw_gpu_power_draw_watts\x7bnode=\"".data) m.node m.gpu_devices
      (fun g => g.power_draw_watts) ++
    deviceSection e.gpu_power_limit
      ("# HELP hw_gpu_power_limit_watts GPU power limit in watts".data)
      ("# TYPE hw_gpu_power_limit_watts gauge".data)
      ("hw_gpu_power_limit_watts\x7bnode=\"".data) m.node m.gpu_devices
      (fun g => g.power_limit_watts))))))
   else [])))))))))))

/-- NodeMetrics::to_prometheus from src/metrics.rs: the concatenation
of the pushed lines, each newline-terminated. -/
def NodeMetrics.to_prometheus (m : NodeMetrics) (e : MetricsEnabled) :
    List Char :=
  ((promChunks m e).map (fun c => c ++ ['\n'])).flatten

/-- Number of lines of a text that begin a sample of the given metric
family, i.e. that start with the family name followed by an opening
brace. -/
def countFamilyLines (fam text : List Char) : Nat :=
  ((linesOf text).filter (fun ln => startsWith ln (fam ++ ['\x7b']))).length

/-- Rendering the same snapshot twice in a row, modelling two
successive to_prometheus calls on one NodeMetrics value. -/
def renderTwice (m : NodeMetrics) (e : MetricsEnabled) :
    List Char × List Char :=
  (NodeMetrics.to_prometheus m e, NodeMetrics.to_prometheus m e)

/-! Concrete instances used as test vectors. -/

/-- All metrics disabled. -/
def eAllOff : MetricsEnabled :=
  { node_info := false, node_uptime := false, cpu_cores := false,
    cpu_threads := false, cpu_usage := false, cpu_used_cores := false,
    memory_total := false, memory_used := false, memory_available := false,
    memory_usage := false, gpu_count := false, gpu_used_count := false,
    gpu_type_count := false, gpu_memory_total := false,
    gpu_memory_used := false, gpu_memory_free := false,
    gpu_utilization := false, gpu_temperature := false,
    gpu_power_draw := false, gpu_power_limit := false }

def eUptimeOnly : MetricsEnabled := { eAllOff with node_uptime := true }

def eNodeInfoOnly : MetricsEnabled := { eAllOff with node_info := true }

def eUtilOnly : MetricsEnabled := { eAllOff with gpu_utilization := true }

def eTypeOnly : MetricsEnabled := { eAllOff with gpu_type_count := true }

/-- Exactly the seven per-device metric families enabled. -/
def eDevice7 : MetricsEnabled :=
  { eAllOff with
    gpu_memory_total := true
    gpu_memory_used := true
    gpu_memory_free := true
    gpu_utilization := true
    gpu_temperature := true
    gpu_power_draw := true
    gpu_power_limit := true }

/-- The device record of the spec's parse scenario. -/
def gT4 : GpuInfo :=
  { index := 0, name := ("Tesla T4".data), uuid := ("GPU-abc123".data),
    memory_total_mb := 16384, memory_used_mb := 2048,
    memory_free_mb := 14336, utilization_percent := 23,
    temperature_celsius := 45, power_draw_watts := 70,
    power_limit_watts := 70 }

/-- A device whose uuid contains a newline followed by a forged sample
line, demonstrating what the missing uuid escaping allows. -/
def gInj : GpuInfo :=
  { index := 0, name := ("Tesla T4".data),
    uuid := ("u\nhw_gpu_utilization_percent\x7bnode=\"n\",gpu_index=\"1\",gpu_name=\"g\",gpu_uuid=\"v\"\x7d 5").data,
    memory_total_mb := 1, memory_used_mb := 1, memory_free_mb := 0,
    utilization_percent := 2, temperature_celsius := 3,
    power_draw_watts := 4, power_limit_watts := 5 }

def gA : GpuInfo :=
  { index := 0, name := ("A100".data), uuid := ("GPU-aaa".data),
    memory_total_mb := 0, memory_used_mb := 0, memory_free_mb := 0,
    utilization_percent := 0, temperature_celsius := 0,
    power_draw_watts := 0, power_limit_watts := 0 }

def gB : GpuInfo := { gA with index := 1, uuid := ("GPU-bbb".data) }

/-- A minimal snapshot with no GPU devices. -/
def mBase : NodeMetrics :=
  { hostname := ("h".data), node := ("n".data), os_name := ("o".data),
    os_version := ("1".data), kernel_version := ("k".data),
    uptime_secs := 0, cpu_cores := 1, cpu_threads := 1,
    cpu_model := ("c".data), cpu_usage_percent := 0, cpu_used_cores := 0,
    memory_total_bytes := 0, memory_used_bytes := 0,
    memory_available_bytes := 0, memory_usage_percent := 0,
    gpu_count := 0, gpu_used_count := 0, gpu_devices := [],
    gpu_type_counts := [] }

/-- A snapshot whose node label value contains a double quote. -/
def mQuote : NodeMetrics := { mBase with node := ("x\"y".data) }

/-- A snapshot holding the uuid-injection device. -/
def mInj : NodeMetrics :=
  { mBase with
    gpu_count := 1
    gpu_devices := [gInj]
    gpu_type_counts := [(("Tesla T4".data), 1)] }

/-- A well-formed one-device snapshot. -/
def mT4 : NodeMetrics :=
  { mBase with
    gpu_count := 1
    gpu_devices := [gT4]
    gpu_type_counts := [(("Tesla T4".data), 1)] }

/-! Support lemmas about the string primitives. -/

theorem startsWith_nil (l : List Char) : startsWith l [] = true := by
  cases l <;> rfl

theorem startsWith_iff (l pat : List Char) :
    startsWith l pat = true ↔ ∃ t, l = pat ++ t := by
  induction pat generalizing l with
  | nil =>
    simp only [startsWith_nil, List.nil_append]
    exact ⟨fun _ => ⟨l, rfl⟩, fun _ => trivial⟩
  | cons p ps ih =>
    cases l with
    | nil =>
      simp only [startsWith]
      constructor
      · intro h; cases h
      · rintro ⟨t, ht⟩; cases ht
    | cons c r =>
      simp only [startsWith, Bool.and_eq_true, decide_eq_true_eq, ih,
        List.cons_append, List.cons.injEq]
      constructor
      · rintro ⟨rfl, t, rfl⟩; exact ⟨t, rfl, rfl⟩
      · rintro ⟨t, rfl, rfl⟩; exact ⟨rfl, t, rfl⟩

theorem startsWith_append_left (lit rest pat : List Char)
    (h : pat.length ≤ lit.length) :
    startsWith (lit ++ rest) pat = startsWith lit pat := by
  induction pat generalizing lit with
  | nil => simp [startsWith_nil]
  | cons p ps ih =>
    cases lit with
    | nil => simp at h
    | cons c cs =>
      simp only [List.cons_append, startsWith, List.append_eq]
      rw [ih cs (Nat.succ_le_succ_iff.mp h)]

theorem startsWith_append_cases (lit rest pat : List Char)
    (h : startsWith (lit ++ rest) pat = true) :
    startsWith lit pat = true ∨ startsWith pat lit = true := by
  induction pat generalizing lit with
  | nil => left; exact startsWith_nil lit
  | cons p ps ih =>
    cases lit with
    | nil => right; exact startsWith_nil _
    | cons c cs =>
      simp only [List.cons_append, startsWith, Bool.and_eq_true,
        decide_eq_true_eq] at h ⊢
      rcases h with ⟨rfl, h2⟩
      rcases ih cs h2 with h3 | h3
      · left; exact ⟨rfl, h3⟩
      · right; exact ⟨rfl, h3⟩

theorem not_startsWith_append (lit rest pat : List Char)
    (h1 : startsWith lit pat = false) (h2 : startsWith pat lit = false) :
    startsWith (lit ++ rest) pat = false := by
  cases h : startsWith (lit ++ rest) pat
  · rfl
  · rcases startsWith_append_cases lit rest pat h with h3 | h3
    · rw [h1] at h3; cases h3
    · rw [h2] at h3; cases h3

theorem mem_trimLeft (c : Char) (l : List Char) (h : c ∈ l)
    (hw : isWsChar c = false) : c ∈ trimLeft l := by
  induction l with
  | nil => cases h
  | cons x xs ih =>
    simp only [trimLeft]
    by_cases hx : isWsChar x = true
    · rw [if_pos hx]
      rcases List.mem_cons.mp h with rfl | h2
      · rw [hw] at hx; cases hx
      · exact ih h2
    · rw [if_neg hx]; exact h

theorem mem_trim (c : Char) (l : List Char) (h : c ∈ l)
    (hw : isWsChar c = false) : c ∈ trim l := by
  unfold trim
  rw [List.mem_reverse]
  refine mem_trimLeft c _ ?_ hw
  rw [List.mem_reverse]
  exact mem_trimLeft c _ h hw

theorem mem_replaceSubAux_del (pat : List Char) (c : Char)
    (hpat : c ∉ pat) :
    ∀ (fuel : Nat) (l : List Char), c ∈ l →
      c ∈ replaceSubAux pat [] fuel l := by
  intro fuel
  induction fuel with
  | zero =>
    intro l hl
    cases l with
    | nil => cases hl
    | cons x xs => exact hl
  | succ n ih =>
    intro l hl
    cases l with
    | nil => cases hl
    | cons x xs =>
      simp only [replaceSubAux]
      by_cases hcond :
          (startsWith (x :: xs) pat && !pat.isEmpty) = true
      · rw [if_pos hcond, List.nil_append]
        have hcond' := hcond
        rw [Bool.and_eq_true] at hcond'
        rcases hcond' with ⟨hsw, hne⟩
        rcases (startsWith_iff _ _).mp hsw with ⟨t, ht⟩
        have hct : c ∈ t := by
          rw [ht] at hl
          rcases List.mem_append.mp hl with h | h
          · exact absurd h hpat
          · exact h
        have hdrop : xs.drop (pat.length - 1) = t := by
          have hp1 : 1 ≤ pat.length := by
            cases pat with
            | nil => simp at hne
            | cons a b => simp
          have : (x :: xs).drop pat.length = t := by
            rw [ht, List.drop_left]
          rw [← this]
          cases pat with
          | nil => simp at hne
          | cons a b => simp [List.drop]
        rw [hdrop]
        exact ih t hct
      · rw [if_neg hcond]
        rcases List.mem_cons.mp hl with rfl | h2
        · exact List.mem_cons_self _ _
        · exact List.mem_cons_of_mem _ (ih xs h2)

theorem mem_replaceSub_del (l pat : List Char) (c : Char)
    (h : c ∈ l) (hpat : c ∉ pat) : c ∈ replaceSub l pat [] :=
  mem_replaceSubAux_del pat c hpat l.length l h

theorem not_mem_replaceSubAux_self (c : Char) (rep : List Char)
    (hrep : c ∉ rep) :
    ∀ (fuel : Nat) (l : List Char), l.length ≤ fuel →
      c ∉ replaceSubAux [c] rep fuel l := by
  intro fuel
  induction fuel with
  | zero =>
    intro l hl
    cases l with
    | nil => simp [replaceSubAux]
    | cons x xs => simp at hl
  | succ n ih =>
    intro l hl
    cases l with
    | nil => simp [replaceSubAux]
    | cons x xs =>
      simp only [replaceSubAux]
      by_cases hx : x = c
      · subst hx
        have hcond :
            (startsWith (x :: xs) [x] && !(List.isEmpty [x])) = true := by
          simp [startsWith, startsWith_nil]
        rw [if_pos hcond]
        intro hmem
        rcases List.mem_append.mp hmem with h | h
        · exact hrep h
        · have hd : xs.drop (List.length [x] - 1) = xs := by simp
          rw [hd] at h
          exact ih xs (Nat.le_of_succ_le_succ hl) h
      · have hcond :
            ¬ (startsWith (x :: xs) [c] && !(List.isEmpty [c])) = true := by
          simp [startsWith, hx]
        rw [if_neg hcond]
        intro hmem
        rcases List.mem_cons.mp hmem with h | h
        · exact hx h.symm
        · exact ih xs (Nat.le_of_succ_le_succ hl) h

theorem not_mem_replaceSub_self (l : List Char) (c : Char)
    (rep : List Char) (hrep : c ∉ rep) : c ∉ replaceSub l [c] rep :=
  not_mem_replaceSubAux_self c rep hrep l.length l (Nat.le_refl _)

theorem containsSub_of_mem (c : Char) (l : List Char) (h : c ∈ l) :
    containsSub [c] l = true := by
  induction l with
  | nil => cases h
  | cons x xs ih =>
    simp only [containsSub, Bool.or_eq_true]
    rcases List.mem_cons.mp h with rfl | h2
    · left; simp [startsWith]
    · right; exact ih h2

theorem splitOnChar_ne_nil (sep : Char) (l : List Char) :
    splitOnChar sep l ≠ [] := by
  cases l with
  | nil => simp [splitOnChar]
  | cons c rest =>
    simp only [splitOnChar]
    rcases splitOnChar sep rest with _ | ⟨a, b⟩ <;>
      by_cases hc : c = sep <;> simp [hc]

theorem splitOnChar_nl_append (a t : List Char) (ha : '\n' ∉ a) :
    splitOnChar '\n' (a ++ '\n' :: t) = a :: splitOnChar '\n' t := by
  induction a with
  | nil =>
    simp only [List.nil_append, splitOnChar]
    rcases h : splitOnChar '\n' t with _ | ⟨x, y⟩
    · exact absurd h (splitOnChar_ne_nil _ _)
    · simp
  | cons c cs ih =>
    have hc : c ≠ '\n' := fun hh => ha (hh ▸ List.mem_cons_self _ _)
    have hcs : '\n' ∉ cs := fun hh => ha (List.mem_cons_of_mem _ hh)
    simp only [List.cons_append, splitOnChar, List.append_eq, ih hcs]
    rw [if_neg hc]

theorem splitOnChar_nl_flatten (chunks : List (List Char))
    (h : ∀ c ∈ chunks, '\n' ∉ c) :
    splitOnChar '\n' ((chunks.map (fun c => c ++ ['\n'])).flatten)
      = chunks ++ [[]] := by
  induction chunks with
  | nil => simp [splitOnChar]
  | cons c cs ih =>
    have hc : '\n' ∉ c := h c (List.mem_cons_self _ _)
    have hcs : ∀ x ∈ cs, '\n' ∉ x := fun x hx => h x (List.mem_cons_of_mem _ hx)
    simp only [List.map_cons, List.flatten_cons, List.append_assoc,
      List.singleton_append]
    rw [splitOnChar_nl_append c _ hc, ih hcs]
    rfl

theorem getLast?_append_right (a b : List Char) (h : b ≠ []) :
    (a ++ b).getLast? = b.getLast? :=
  List.getLast?_append_of_ne_nil a h

theorem getLast?_cons_of_ne_nil (x : Char) (l : List Char) (h : l ≠ []) :
    (x :: l).getLast? = l.getLast? := by
  cases l with
  | nil => exact absurd rfl h
  | cons y ys => exact List.getLast?_cons_cons

theorem linesOf_chunks (chunks : List (List Char))
    (h : ∀ c ∈ chunks, '\n' ∉ c ∧ stripCr c = c) :
    linesOf ((chunks.map (fun c => c ++ ['\n'])).flatten) = chunks := by
  unfold linesOf
  rw [splitOnChar_nl_flatten chunks (fun c hc => (h c hc).1)]
  have h1 : (chunks ++ [[]]).getLast? = some ([] : List Char) :=
    List.getLast?_concat _
  rw [if_pos h1, List.dropLast_concat]
  calc chunks.map stripCr = chunks.map id :=
        List.map_congr_left (fun c hc => (h c hc).2)
    _ = chunks := List.map_id _

/-! Digit rendering lemmas. -/

theorem digitChar_digit (n : Nat) : isDigitChar (digitChar n) = true := by
  unfold digitChar
  split <;> decide

theorem natToCharsAux_structure (fuel : Nat) :
    ∀ (n : Nat) (acc : List Char),
      ∃ l, natToCharsAux fuel n acc = l ++ acc ∧
        ∀ c ∈ l, isDigitChar c = true := by
  induction fuel with
  | zero => intro n acc; exact ⟨[], rfl, by simp⟩
  | succ k ih =>
    intro n acc
    simp only [natToCharsAux]
    by_cases hn : n = 0
    · rw [if_pos hn]; exact ⟨[], rfl, by simp⟩
    · rw [if_neg hn]
      rcases ih (n / 10) (digitChar (n % 10) :: acc) with ⟨l, hl, hdig⟩
      refine ⟨l ++ [digitChar (n % 10)], ?_, ?_⟩
      · rw [hl, List.append_assoc, List.singleton_append]
      · intro c hc
        rcases List.mem_append.mp hc with h1 | h1
        · exact hdig c h1
        · rcases List.mem_singleton.mp h1 with rfl
          exact digitChar_digit _

theorem natToChars_digits (n : Nat) :
    ∀ c ∈ natToChars n, isDigitChar c = true := by
  unfold natToChars
  by_cases hn : n = 0
  · rw [if_pos hn]; intro c hc
    rcases List.mem_singleton.mp hc with rfl; decide
  · rw [if_neg hn]
    rcases natToCharsAux_structure n n [] with ⟨l, hl, hdig⟩
    rw [hl, List.append_nil]
    exact hdig

theorem natToChars_getLast_digit (n : Nat) :
    ∃ d, (natToChars n).getLast? = some d ∧ isDigitChar d = true := by
  unfold natToChars
  by_cases hn : n = 0
  · rw [if_pos hn]; exact ⟨'0', rfl, by decide⟩
  · rw [if_neg hn]
    cases n with
    | zero => exact absurd rfl hn
    | succ k =>
      simp only [natToCharsAux]
      rw [if_neg hn]
      rcases natToCharsAux_structure k ((k + 1) / 10)
          [digitChar ((k + 1) % 10)] with ⟨l, hl, _⟩
      rw [hl, getLast?_append_right l _ (by simp)]
      exact ⟨digitChar ((k + 1) % 10), rfl, digitChar_digit _⟩

theorem natToChars_ne_nil (n : Nat) : natToChars n ≠ [] := by
  rcases natToChars_getLast_digit n with ⟨d, hd, _⟩
  intro h
  rw [h] at hd
  cases hd

theorem digit_no_nl (l : List Char)
    (h : ∀ c ∈ l, isDigitChar c = true) : '\n' ∉ l := by
  intro hmem
  have := h _ hmem
  cases this

theorem natToChars_no_nl (n : Nat) : '\n' ∉ natToChars n :=
  digit_no_nl _ (natToChars_digits n)

theorem pad2_getLast_digit (n : Nat) :
    ∃ d, (pad2 n).getLast? = some d ∧ isDigitChar d = true := by
  unfold pad2
  split
  · rcases natToChars_getLast_digit n with ⟨d, hd, hdig⟩
    refine ⟨d, ?_, hdig⟩
    have : '0' :: natToChars n = ['0'] ++ natToChars n := rfl
    rw [this, getLast?_append_right _ _ (natToChars_ne_nil n)]
    exact hd
  · exact natToChars_getLast_digit n

theorem pad2_no_nl (n : Nat) : '\n' ∉ pad2 n := by
  unfold pad2
  split
  · intro h
    rcases List.mem_cons.mp h with h1 | h1
    · cases h1
    · exact natToChars_no_nl n h1
  · exact natToChars_no_nl n

theorem pad2_ne_nil (n : Nat) : pad2 n ≠ [] := by
  unfold pad2
  split
  · simp
  · exact natToChars_ne_nil n

theorem fmt2_no_nl (q : Rat) : '\n' ∉ fmt2 q := by
  unfold fmt2
  intro h
  rcases List.mem_append.mp h with h1 | h1
  · rcases List.mem_append.mp h1 with h2 | h2
    · split at h2
      · rcases List.mem_singleton.mp h2 with h3; cases h3
      · cases h2
    · exact natToChars_no_nl _ h2
  · rcases List.mem_cons.mp h1 with h2 | h2
    · cases h2
    · exact pad2_no_nl _ h2

theorem fmt2_getLast_digit (q : Rat) :
    ∃ d, (fmt2 q).getLast? = some d ∧ isDigitChar d = true := by
  unfold fmt2
  rcases pad2_getLast_digit
      ((if |q| * 100 - (((|q| * 100).floor.toNat : Nat) : Rat) > 1 / 2 then
          (|q| * 100).floor.toNat + 1
        else if |q| * 100 - (((|q| * 100).floor.toNat : Nat) : Rat) < 1 / 2 then
          (|q| * 100).floor.toNat
        else if (|q| * 100).floor.toNat % 2 = 0 then (|q| * 100).floor.toNat
        else (|q| * 100).floor.toNat + 1) % 100) with ⟨d, hd, hdig⟩
  refine ⟨d, ?_, hdig⟩
  rw [getLast?_append_right _ _ (by simp [pad2_ne_nil])]
  rw [getLast?_cons_of_ne_nil _ _ (pad2_ne_nil _)]
  exact hd

theorem escape_no_nl (s : List Char) : '\n' ∉ escape_label_value s := by
  unfold escape_label_value
  have h1 : ("\n".data : List Char) = ['\n'] := rfl
  rw [h1]
  exact not_mem_replaceSub_self _ '\n' _ (by decide)

/-! Chunk well-formedness: every line pushed by the formatter is free
of raw newlines (under hypotheses on the unescaped label values) and
ends in a character that the line splitter does not strip. -/

theorem ne_nil_of_getLast (l : List Char) (d : Char)
    (h : l.getLast? = some d) : l ≠ [] := by
  intro hn
  subst hn
  cases h

theorem no_nl_append (a b : List Char) (ha : '\n' ∉ a) (hb : '\n' ∉ b) :
    '\n' ∉ a ++ b := by
  rw [List.mem_append]
  intro h
  rcases h with h | h
  · exact ha h
  · exact hb h

/-- Carry a digit-final-character fact through a left append. -/
theorem digit_end_append (a v : List Char)
    (h : ∃ d, v.getLast? = some d ∧ isDigitChar d = true) :
    ∃ d, (a ++ v).getLast? = some d ∧ isDigitChar d = true := by
  rcases h with ⟨d, hd, hdig⟩
  refine ⟨d, ?_, hdig⟩
  rw [getLast?_append_right a v (ne_nil_of_getLast v d hd)]
  exact hd

theorem stripCr_fixed_of_digit_end (c : List Char)
    (h : ∃ d, c.getLast? = some d ∧ isDigitChar d = true) :
    stripCr c = c := by
  rcases h with ⟨d, hd, hdig⟩
  have hne : d ≠ '\r' := by
    intro hp
    rw [hp] at hdig
    cases hdig
  unfold stripCr
  rw [hd, if_neg (by simp [hne])]

theorem simpleChunk_good (lit node v : List Char)
    (hlit : '\n' ∉ lit) (hnode : '\n' ∉ node) (hv : '\n' ∉ v)
    (hvend : ∃ d, v.getLast? = some d ∧ isDigitChar d = true) :
    '\n' ∉ simpleChunk lit node v ∧
      stripCr (simpleChunk lit node v) = simpleChunk lit node v := by
  constructor
  · exact no_nl_append _ _ hlit
      (no_nl_append _ _ hnode (no_nl_append _ _ (by decide) hv))
  · exact stripCr_fixed_of_digit_end _
      (digit_end_append _ _ (digit_end_append _ _ (digit_end_append _ _ hvend)))

theorem nodeInfoChunk_good (m : NodeMetrics)
    (hnode : '\n' ∉ m.node) (hos : '\n' ∉ m.os_name)
    (hosv : '\n' ∉ m.os_version) (hk : '\n' ∉ m.kernel_version) :
    '\n' ∉ nodeInfoChunk m ∧
      stripCr (nodeInfoChunk m) = nodeInfoChunk m := by
  constructor
  · refine no_nl_append _ _ (by decide) (no_nl_append _ _ hnode ?_)
    refine no_nl_append _ _ (by decide) (no_nl_append _ _ hos ?_)
    refine no_nl_append _ _ (by decide) (no_nl_append _ _ hosv ?_)
    refine no_nl_append _ _ (by decide) (no_nl_append _ _ hk ?_)
    refine no_nl_append _ _ (by decide)
      (no_nl_append _ _ (escape_no_nl m.cpu_model) (by decide))
  · refine stripCr_fixed_of_digit_end _ ?_
    refine digit_end_append _ _ (digit_end_append _ _ ?_)
    refine digit_end_append _ _ (digit_end_append _ _ ?_)
    refine digit_end_append _ _ (digit_end_append _ _ ?_)
    refine digit_end_append _ _ (digit_end_append _ _ ?_)
    refine digit_end_append _ _ (digit_end_append _ _ ?_)
    exact ⟨'1', by decide, by decide⟩

theorem typeCountChunk_good (node : List Char) (kv : List Char × Nat)
    (hnode : '\n' ∉ node) :
    '\n' ∉ typeCountChunk node kv ∧
      stripCr (typeCountChunk node kv) = typeCountChunk node kv := by
  constructor
  · refine no_nl_append _ _ (by decide) (no_nl_append _ _ hnode ?_)
    refine no_nl_append _ _ (by decide) ?_
    refine no_nl_append _ _ (escape_no_nl kv.1) ?_
    exact no_nl_append _ _ (by decide) (natToChars_no_nl kv.2)
  · refine stripCr_fixed_of_digit_end _ ?_
    refine digit_end_append _ _ (digit_end_append _ _ ?_)
    refine digit_end_append _ _ (digit_end_append _ _ ?_)
    exact digit_end_append _ _ (natToChars_getLast_digit kv.2)

theorem deviceChunk_good (famLit node : List Char) (g : GpuInfo) (v : Nat)
    (hlit : '\n' ∉ famLit) (hnode : '\n' ∉ node) (huuid : '\n' ∉ g.uuid) :
    '\n' ∉ deviceChunk famLit node g v ∧
      stripCr (deviceChunk famLit node g v) = deviceChunk famLit node g v := by
  constructor
  · refine no_nl_append _ _ hlit (no_nl_append _ _ hnode ?_)
    refine no_nl_append _ _ (by decide)
      (no_nl_append _ _ (natToChars_no_nl g.index) ?_)
    refine no_nl_append _ _ (by decide)
      (no_nl_append _ _ (escape_no_nl g.name) ?_)
    refine no_nl_append _ _ (by decide) (no_nl_append _ _ huuid ?_)
    exact no_nl_append _ _ (by decide) (natToChars_no_nl v)
  · refine stripCr_fixed_of_digit_end _ ?_
    refine digit_end_append _ _ (digit_end_append _ _ ?_)
    refine digit_end_append _ _ (digit_end_append _ _ ?_)
    refine digit_end_append _ _ (digit_end_append _ _ ?_)
    refine digit_end_append _ _ (digit_end_append _ _ ?_)
    exact digit_end_append _ _ (natToChars_getLast_digit v)

theorem hostSection_good (b : Bool) (help ty lit node v : List Char)
    (hhelp : '\n' ∉ help ∧ stripCr help = help)
    (hty : '\n' ∉ ty ∧ stripCr ty = ty)
    (hlit : '\n' ∉ lit) (hnode : '\n' ∉ node) (hv : '\n' ∉ v)
    (hvend : ∃ d, v.getLast? = some d ∧ isDigitChar d = true) :
    ∀ c ∈ hostSection b help ty lit node v,
      '\n' ∉ c ∧ stripCr c = c := by
  intro c hc
  unfold hostSection at hc
  split at hc
  · rcases List.mem_cons.mp hc with rfl | hc
    · exact hhelp
    · rcases List.mem_cons.mp hc with rfl | hc
      · exact hty
      · rcases List.mem_singleton.mp hc with rfl
        exact simpleChunk_good lit node v hlit hnode hv hvend
  · cases hc

theorem typeSection_good (b : Bool) (node : List Char)
    (tcs : List (List Char × Nat)) (hnode : '\n' ∉ node) :
    ∀ c ∈ typeSection b node tcs, '\n' ∉ c ∧ stripCr c = c := by
  intro c hc
  unfold typeSection at hc
  split at hc
  · rcases List.mem_cons.mp hc with rfl | hc
    · exact ⟨by decide, by decide⟩
    · rcases List.mem_cons.mp hc with rfl | hc
      · exact ⟨by decide, by decide⟩
      · rcases List.mem_map.mp hc with ⟨kv, _, rfl⟩
        exact typeCountChunk_good node kv hnode
  · cases hc

theorem deviceSection_good (b : Bool) (help ty famLit node : List Char)
    (devices : List GpuInfo) (val : GpuInfo → Nat)
    (hhelp : '\n' ∉ help ∧ stripCr help = help)
    (hty : '\n' ∉ ty ∧ stripCr ty = ty)
    (hlit : '\n' ∉ famLit) (hnode : '\n' ∉ node)
    (huuid : ∀ g ∈ devices, '\n' ∉ g.uuid) :
    ∀ c ∈ deviceSection b help ty famLit node devices val,
      '\n' ∉ c ∧ stripCr c = c := by
  intro c hc
  unfold deviceSection at hc
  split at hc
  · rcases List.mem_cons.mp hc with rfl | hc
    · exact hhelp
    · rcases List.mem_cons.mp hc with rfl | hc
      · exact hty
      · rcases List.mem_map.mp hc with ⟨g, hg, rfl⟩
        exact deviceChunk_good famLit node g (val g) hlit hnode (huuid g hg)
  · cases hc

theorem promChunks_good (m : NodeMetrics) (e : MetricsEnabled)
    (hnode : '\n' ∉ m.node) (hos : '\n' ∉ m.os_name)
    (hosv : '\n' ∉ m.os_version) (hk : '\n' ∉ m.kernel_version)
    (huuid : ∀ g ∈ m.gpu_devices, '\n' ∉ g.uuid) :
    ∀ c ∈ promChunks m e, '\n' ∉ c ∧ stripCr c = c := by
  intro c hc
  unfold promChunks at hc
  rcases List.mem_append.mp hc with h | hc
  · split at h
    · rcases List.mem_cons.mp h with rfl | h
      · exact ⟨by decide, by decide⟩
      · rcases List.mem_cons.mp h with rfl | h
        · exact ⟨by decide, by decide⟩
        · rcases List.mem_singleton.mp h with rfl
          exact nodeInfoChunk_good m hnode hos hosv hk
    · cases h
  rcases List.mem_append.mp hc with h | hc
  · exact hostSection_good _ _ _ _ _ _ ⟨by decide, by decide⟩
      ⟨by decide, by decide⟩ (by decide) hnode (natToChars_no_nl _)
      (natToChars_getLast_digit _) c h
  rcases List.mem_append.mp hc with h | hc
  · exact hostSection_good _ _ _ _ _ _ ⟨by decide, by decide⟩
      ⟨by decide, by decide⟩ (by decide) hnode (natToChars_no_nl _)
      (natToChars_getLast_digit _) c h
  rcases List.mem_append.mp hc with h | hc
  · exact hostSection_good _ _ _ _ _ _ ⟨by decide, by decide⟩
      ⟨by decide, by decide⟩ (by decide) hnode (natToChars_no_nl _)
      (natToChars_getLast_digit _) c h
  rcases List.mem_append.mp hc with h | hc
  · exact hostSection_good _ _ _ _ _ _ ⟨by decide, by decide⟩
      ⟨by decide, by decide⟩ (by decide) hnode (fmt2_no_nl _)
      (fmt2_getLast_digit _) c h
  rcases List.mem_append.mp hc with h | hc
  · exact hostSection_good _ _ _ _ _ _ ⟨by decide, by decide⟩
      ⟨by decide, by decide⟩ (by decide) hnode (fmt2_no_nl _)
      (fmt2_getLast_digit _) c h
  rcases List.mem_append.mp hc with h | hc
  · exact hostSection_good _ _ _ _ _ _ ⟨by decide, by decide⟩
      ⟨by decide, by decide⟩ (by decide) hnode (natToChars_no_nl _)
      (natToChars_getLast_digit _) c h
  rcases List.mem_append.mp hc with h | hc
  · exact hostSection_good _ _ _ _ _ _ ⟨by decide, by decide⟩
      ⟨by decide, by decide⟩ (by decide) hnode (natToChars_no_nl _)
      (natToChars_getLast_digit _) c h
  rcases List.mem_append.mp hc with h | hc
  · exact hostSection_good _ _ _ _ _ _ ⟨by decide, by decide⟩
      ⟨by decide, by decide⟩ (by decide) hnode (natToChars_no_nl _)
      (natToChars_getLast_digit _) c h
  rcases List.mem_append.mp hc with h | hc
  · exact hostSection_good _ _ _ _ _ _ ⟨by decide, by decide⟩
      ⟨by decide, by decide⟩ (by decide) hnode (fmt2_no_nl _)
      (fmt2_getLast_digit _) c h
  rcases List.mem_append.mp hc with h | hc
  · split at h
    · rcases List.mem_append.mp h with h2 | h2
      · exact hostSection_good _ _ _ _ _ _ ⟨by decide, by decide⟩
          ⟨by decide, by decide⟩ (by decide) hnode (natToChars_no_nl _)
          (natToChars_getLast_digit _) c h2
      rcases List.mem_append.mp h2 with h3 | h3
      · exact hostSection_good _ _ _ _ _ _ ⟨by decide, by decide⟩
          ⟨by decide, by decide⟩ (by decide) hnode (natToChars_no_nl _)
          (natToChars_getLast_digit _) c h3
      · exact typeSection_good _ _ _ hnode c h3
    · cases h
  split at hc
  · rcases List.mem_append.mp hc with h | hc
    · exact deviceSection_good _ _ _ _ _ _ _ ⟨by decide, by decide⟩
        ⟨by decide, by decide⟩ (by decide) hnode huuid c h
    rcases List.mem_append.mp hc with h | hc
    · exact deviceSection_good _ _ _ _ _ _ _ ⟨by decide, by decide⟩
        ⟨by decide, by decide⟩ (by decide) hnode huuid c h
    rcases List.mem_append.mp hc with h | hc
    · exact deviceSection_good _ _ _ _ _ _ _ ⟨by decide, by decide⟩
        ⟨by decide, by decide⟩ (by decide) hnode huuid c h
    rcases List.mem_append.mp hc with h | hc
    · exact deviceSection_good _ _ _ _ _ _ _ ⟨by decide, by decide⟩
        ⟨by decide, by decide⟩ (by decide) hnode huuid c h
    rcases List.mem_append.mp hc with h | hc
    · exact deviceSection_good _ _ _ _ _ _ _ ⟨by decide, by decide⟩
        ⟨by decide, by decide⟩ (by decide) hnode huuid c h
    rcases List.mem_append.mp hc with h | hc
    · exact deviceSection_good _ _ _ _ _ _ _ ⟨by decide, by decide⟩
        ⟨by decide, by decide⟩ (by decide) hnode huuid c h
    · exact deviceSection_good _ _ _ _ _ _ _ ⟨by decide, by decide⟩
        ⟨by decide, by decide⟩ (by decide) hnode huuid c hc
  · cases hc

/-! Counting sample lines per metric family. -/

theorem filter_len_zero (p : List Char → Bool) (L : List (List Char))
    (h : ∀ x ∈ L, p x = false) : (L.filter p).length = 0 := by
  induction L with
  | nil => rfl
  | cons x xs ih =>
    have hx := h x (List.mem_cons_self _ _)
    rw [List.filter_cons_of_neg (by simp [hx])]
    exact ih (fun y hy => h y (List.mem_cons_of_mem _ hy))

theorem filter_len_all (p : List Char → Bool) (L : List (List Char))
    (h : ∀ x ∈ L, p x = true) : (L.filter p).length = L.length := by
  induction L with
  | nil => rfl
  | cons x xs ih =>
    rw [List.filter_cons_of_pos (h x (List.mem_cons_self _ _)),
      List.length_cons, List.length_cons,
      ih (fun y hy => h y (List.mem_cons_of_mem _ hy))]

theorem hostSection_filter_zero (b : Bool) (help ty lit node v pat : List Char)
    (h1 : startsWith help pat = false) (h2 : startsWith ty pat = false)
    (h3 : startsWith lit pat = false) (h4 : startsWith pat lit = false) :
    ((hostSection b help ty lit node v).filter
      (fun ln => startsWith ln pat)).length = 0 := by
  apply filter_len_zero
  intro x hx
  unfold hostSection at hx
  split at hx
  · rcases List.mem_cons.mp hx with rfl | hx
    · exact h1
    · rcases List.mem_cons.mp hx with rfl | hx
      · exact h2
      · rcases List.mem_singleton.mp hx with rfl
        exact not_startsWith_append lit _ pat h3 h4
  · cases hx

theorem typeSection_filter_zero (b : Bool) (node : List Char)
    (tcs : List (List Char × Nat)) (pat : List Char)
    (h1 : startsWith
      ("# HELP hw_gpu_type_count Number of GPUs by type per node".data)
      pat = false)
    (h2 : startsWith ("# TYPE hw_gpu_type_count gauge".data) pat = false)
    (h3 : startsWith ("hw_gpu_type_count\x7bnode=\"".data) pat = false)
    (h4 : startsWith pat ("hw_gpu_type_count\x7bnode=\"".data) = false) :
    ((typeSection b node tcs).filter
      (fun ln => startsWith ln pat)).length = 0 := by
  apply filter_len_zero
  intro x hx
  unfold typeSection at hx
  split at hx
  · rcases List.mem_cons.mp hx with rfl | hx
    · exact h1
    · rcases List.mem_cons.mp hx with rfl | hx
      · exact h2
      · rcases List.mem_map.mp hx with ⟨kv, _, rfl⟩
        exact not_startsWith_append _ _ pat h3 h4
  · cases hx

theorem deviceSection_filter_zero (b : Bool) (help ty famLit node : List Char)
    (devices : List GpuInfo) (val : GpuInfo → Nat) (pat : List Char)
    (h1 : startsWith help pat = false) (h2 : startsWith ty pat = false)
    (h3 : startsWith famLit pat = false)
    (h4 : startsWith pat famLit = false) :
    ((deviceSection b help ty famLit node devices val).filter
      (fun ln => startsWith ln pat)).length = 0 := by
  apply filter_len_zero
  intro x hx
  unfold deviceSection at hx
  split at hx
  · rcases List.mem_cons.mp hx with rfl | hx
    · exact h1
    · rcases List.mem_cons.mp hx with rfl | hx
      · exact h2
      · rcases List.mem_map.mp hx with ⟨g, _, rfl⟩
        exact not_startsWith_append famLit _ pat h3 h4
  · cases hx

theorem deviceSection_filter_all (help ty famLit node : List Char)
    (devices : List GpuInfo) (val : GpuInfo → Nat) (pat : List Char)
    (h1 : startsWith help pat = false) (h2 : startsWith ty pat = false)
    (h5 : pat.length ≤ famLit.length) (h6 : startsWith famLit pat = true) :
    ((deviceSection true help ty famLit node devices val).filter
      (fun ln => startsWith ln pat)).length = devices.length := by
  unfold deviceSection
  rw [if_pos rfl]
  rw [List.filter_cons_of_neg (by simp [h1]),
    List.filter_cons_of_neg (by simp [h2])]
  rw [filter_len_all _ _ ?_, List.length_map]
  intro x hx
  rcases List.mem_map.mp hx with ⟨g, _, rfl⟩
  show startsWith (deviceChunk famLit node g (val g)) pat = true
  unfold deviceChunk
  rw [startsWith_append_left _ _ pat h5]
  exact h6

theorem countFamilyLines_to_prometheus (m : NodeMetrics)
    (e : MetricsEnabled) (fam : List Char)
    (hnode : '\n' ∉ m.node) (hos : '\n' ∉ m.os_name)
    (hosv : '\n' ∉ m.os_version) (hk : '\n' ∉ m.kernel_version)
    (huuid : ∀ g ∈ m.gpu_devices, '\n' ∉ g.uuid) :
    countFamilyLines fam (m.to_prometheus e)
      = ((promChunks m e).filter
          (fun ln => startsWith ln (fam ++ ['\x7b']))).length := by
  unfold countFamilyLines NodeMetrics.to_prometheus
  rw [linesOf_chunks _ (promChunks_good m e hnode hos hosv hk huuid)]

theorem infoSection_filter_zero (b : Bool) (m : NodeMetrics)
    (pat : List Char)
    (h1 : startsWith
      ("# HELP hw_node_info Node hardware information".data) pat = false)
    (h2 : startsWith ("# TYPE hw_node_info gauge".data) pat = false)
    (h3 : startsWith ("hw_node_info\x7bnode=\"".data) pat = false)
    (h4 : startsWith pat ("hw_node_info\x7bnode=\"".data) = false) :
    (((if b then
        [("# HELP hw_node_info Node hardware information".data),
         ("# TYPE hw_node_info gauge".data),
         nodeInfoChunk m]
       else []) : List (List Char)).filter
      (fun ln => startsWith ln pat)).length = 0 := by
  apply filter_len_zero
  intro x hx
  split at hx
  · rcases List.mem_cons.mp hx with rfl | hx
    · exact h1
    · rcases List.mem_cons.mp hx with rfl | hx
      · exact h2
      · rcases List.mem_singleton.mp hx with rfl
        unfold nodeInfoChunk
        exact not_startsWith_append _ _ pat h3 h4
  · cases hx

theorem countLines_gpu_utilization (m : NodeMetrics) (e : MetricsEnabled)
    (hnode : '\n' ∉ m.node) (hos : '\n' ∉ m.os_name)
    (hosv : '\n' ∉ m.os_version) (hk : '\n' ∉ m.kernel_version)
    (huuid : ∀ g ∈ m.gpu_devices, '\n' ∉ g.uuid)
    (hf : e.gpu_utilization = true) :
    countFamilyLines ("hw_gpu_utilization_percent".data)
      (m.to_prometheus e) = m.gpu_devices.length := by
  rw [countFamilyLines_to_prometheus m e _ hnode hos hosv hk huuid]
  unfold promChunks
  simp only [List.filter_append, List.length_append]
  rw [infoSection_filter_zero _ m _ (by decide) (by decide) (by decide)
    (by decide)]
  rw [hostSection_filter_zero _ _ _ _ _ _ _ (by decide) (by decide)
    (by decide) (by decide)]
  rw [hostSection_filter_zero _ _ _ _ _ _ _ (by decide) (by decide)
    (by decide) (by decide)]
  rw [hostSection_filter_zero _ _ _ _ _ _ _ (by decide) (by decide)
    (by decide) (by decide)]
  rw [hostSection_filter_zero _ _ _ _ _ _ _ (by decide) (by decide)
    (by decide) (by decide)]
  rw [hostSection_filter_zero _ _ _ _ _ _ _ (by decide) (by decide)
    (by decide) (by decide)]
  rw [hostSection_filter_zero _ _ _ _ _ _ _ (by decide) (by decide)
    (by decide) (by decide)]
  rw [hostSection_filter_zero _ _ _ _ _ _ _ (by decide) (by decide)
    (by decide) (by decide)]
  rw [hostSection_filter_zero _ _ _ _ _ _ _ (by decide) (by decide)
    (by decide) (by decide)]
  rw [hostSection_filter_zero _ _ _ _ _ _ _ (by decide) (by decide)
    (by decide) (by decide)]
  have hblk : ((if m.gpu_count > 0 then
      hostSection e.gpu_count
        ("# HELP hw_gpu_count Total number of GPUs per node".data)
        ("# TYPE hw_gpu_count gauge".data)
        ("hw_gpu_count\x7bnode=\"".data) m.node (natToChars m.gpu_count) ++
      (hostSection e.gpu_used_count
        ("# HELP hw_gpu_used_count Number of GPUs currently in use per node".data)
        ("# TYPE hw_gpu_used_count gauge".data)
        ("hw_gpu_used_count\x7bnode=\"".data) m.node
        (natToChars m.gpu_used_count) ++
      typeSection e.gpu_type_count m.node m.gpu_type_counts)
     else []).filter
      (fun ln => startsWith ln
        (("hw_gpu_utilization_percent".data) ++ ['\x7b']))).length = 0 := by
    split
    · simp only [List.filter_append, List.length_append]
      rw [hostSection_filter_zero _ _ _ _ _ _ _ (by decide) (by decide)
        (by decide) (by decide)]
      rw [hostSection_filter_zero _ _ _ _ _ _ _ (by decide) (by decide)
        (by decide) (by decide)]
      rw [typeSection_filter_zero _ _ _ _ (by decide) (by decide)
        (by decide) (by decide)]
    · rfl
  rw [hblk]
  have hdev : ((if !m.gpu_devices.isEmpty then
      deviceSection e.gpu_memory_total
        ("# HELP hw_gpu_memory_total_bytes GPU total memory in bytes".data)
        ("# TYPE hw_gpu_memory_total_bytes gauge".data)
        ("hw_gpu_memory_total_bytes\x7bnode=\"".data) m.node m.gpu_devices
        (fun g => g.memory_total_mb * 1024 * 1024 % 2 ^ 64) ++
      (deviceSection e.gpu_memory_used
        ("# HELP hw_gpu_memory_used_bytes GPU used memory in bytes".data)
        ("# TYPE hw_gpu_memory_used_bytes gauge".data)
        ("hw_gpu_memory_used_bytes\x7bnode=\"".data) m.node m.gpu_devices
        (fun g => g.memory_used_mb * 1024 * 1024 % 2 ^ 64) ++
      (deviceSection e.gpu_memory_free
        ("# HELP hw_gpu_memory_free_bytes GPU free memory in bytes".data)
        ("# TYPE hw_gpu_memory_free_bytes gauge".data)
        ("hw_gpu_memory_free_bytes\x7bnode=\"".data) m.node m.gpu_devices
        (fun g => g.memory_free_mb * 1024 * 1024 % 2 ^ 64) ++
      (deviceSection e.gpu_utilization
        ("# HELP hw_gpu_utilization_percent GPU utilization percentage".data)
        ("# TYPE hw_gpu_utilization_percent gauge".data)
        ("hw_gpu_utilization_percent\x7bnode=\"".data) m.node m.gpu_devices
        (fun g => g.utilization_percent) ++
      (deviceSection e.gpu_temperature
        ("# HELP hw_gpu_temperature_celsius GPU temperature in Celsius".data)
        ("# TYPE hw_gpu_temperature_celsius gauge".data)
        ("hw_gpu_temperature_celsius\x7bnode=\"".data) m.node m.gpu_devices
        (fun g => g.temperature_celsius) ++
      (deviceSection e.gpu_power_draw
        ("# HELP hw_gpu_power_draw_watts GPU power draw in watts".data)
        ("# TYPE hw_gpu_power_draw_watts gauge".data)
        ("hw_gpu_power_draw_watts\x7bnode=\"".data) m.node m.gpu_devices
        (fun g => g.power_draw_watts) ++
      deviceSection e.gpu_power_limit
        ("# HELP hw_gpu_power_limit_watts GPU power limit in watts".data)
        ("# TYPE hw_gpu_power_limit_watts gauge".data)
        ("hw_gpu_power_limit_watts\x7bnode=\"".data) m.node m.gpu_devices
        (fun g => g.power_limit_watts))))))
     else []).filter
      (fun ln => startsWith ln
        (("hw_gpu_utilization_percent".data) ++ ['\x7b']))).length
      = m.gpu_devices.length := by
    by_cases hd : m.gpu_devices.isEmpty
    · rw [if_neg (by simp [hd])]
      have : m.gpu_devices = [] := by
        cases hl : m.gpu_devices
        · rfl
        · rw [hl] at hd; cases hd
      rw [this]
      rfl
    · rw [if_pos (by simp [hd])]
      simp only [List.filter_append, List.length_append]
      rw [deviceSection_filter_zero _ _ _ _ _ _ _ _ (by decide) (by decide)
        (by decide) (by decide)]
      rw [deviceSection_filter_zero _ _ _ _ _ _ _ _ (by decide) (by decide)
        (by decide) (by decide)]
      rw [deviceSection_filter_zero _ _ _ _ _ _ _ _ (by decide) (by decide)
        (by decide) (by decide)]
      rw [hf]
      rw [deviceSection_filter_all _ _ _ _ _ _ _ (by decide) (by decide)
        (by decide) (by decide)]
      rw [deviceSection_filter_zero _ _ _ _ _ _ _ _ (by decide) (by decide)
        (by decide) (by decide)]
      rw [deviceSection_filter_zero _ _ _ _ _ _ _ _ (by decide) (by decide)
        (by decide) (by decide)]
      rw [deviceSection_filter_zero _ _ _ _ _ _ _ _ (by decide) (by decide)
        (by decide) (by decide)]
      omega
  rw [hdev]
  omega

theorem countLines_gpu_memory_total (m : NodeMetrics) (e : MetricsEnabled)
    (hnode : '\n' ∉ m.node) (hos : '\n' ∉ m.os_name)
    (hosv : '\n' ∉ m.os_version) (hk : '\n' ∉ m.kernel_version)
    (huuid : ∀ g ∈ m.gpu_devices, '\n' ∉ g.uuid)
    (hf : e.gpu_memory_total = true) :
    countFamilyLines ("hw_gpu_memory_total_bytes".data)
      (m.to_prometheus e) = m.gpu_devices.length := by
  rw [countFamilyLines_to_prometheus m e _ hnode hos hosv hk huuid]
  unfold promChunks
  simp only [List.filter_append, List.length_append]
  rw [infoSection_filter_zero _ m _ (by decide) (by decide) (by decide)
    (by decide)]
  rw [hostSection_filter_zero _ _ _ _ _ _ _ (by decide) (by decide)
    (by decide) (by decide)]
  rw [hostSection_filter_zero _ _ _ _ _ _ _ (by decide) (by decide)
    (by decide) (by decide)]
  rw [hostSection_filter_zero _ _ _ _ _ _ _ (by decide) (by decide)
    (by decide) (by decide)]
  rw [hostSection_filter_zero _ _ _ _ _ _ _ (by decide) (by decide)
    (by decide) (by decide)]
  rw [hostSection_filter_zero _ _ _ _ _ _ _ (by decide) (by decide)
    (by decide) (by decide)]
  rw [hostSection_filter_zero _ _ _ _ _ _ _ (by decide) (by decide)
    (by decide) (by decide)]
  rw [hostSection_filter_zero _ _ _ _ _ _ _ (by decide) (by decide)
    (by decide) (by decide)]
  rw [hostSection_filter_zero _ _ _ _ _ _ _ (by decide) (by decide)
    (by decide) (by decide)]
  rw [hostSection_filter_zero _ _ _ _ _ _ _ (by decide) (by decide)
    (by decide) (by decide)]
  have hblk : ((if m.gpu_count > 0 then
      hostSection e.gpu_count
        ("# HELP hw_gpu_count Total number of GPUs per node".data)
        ("# TYPE hw_gpu_count gauge".data)
        ("hw_gpu_count\x7bnode=\"".data) m.node (natToChars m.gpu_count) ++
      (hostSection e.gpu_used_count
        ("# HELP hw_gpu_used_count Number of GPUs currently in use per node".data)
        ("# TYPE hw_gpu_used_count gauge".data)
        ("hw_gpu_used_count\x7bnode=\"".data) m.node
        (natToChars m.gpu_used_count) ++
      typeSection e.gpu_type_count m.node m.gpu_type_counts)
     else []).filter
      (fun ln => startsWith ln
        (("hw_gpu_memory_total_bytes".data) ++ ['\x7b']))).length = 0 := by
    split
    · simp only [List.filter_append, List.length_append]
      rw [hostSection_filter_zero _ _ _ _ _ _ _ (by decide) (by decide)
        (by decide) (by decide)]
      rw [hostSection_filter_zero _ _ _ _ _ _ _ (by decide) (by decide)
        (by decide) (by decide)]
      rw [typeSection_filter_zero _ _ _ _ (by decide) (by decide)
        (by decide) (by decide)]
    · rfl
  rw [hblk]
  have hdev : ((if !m.gpu_devices.isEmpty then
      deviceSection e.gpu_memory_total
        ("# HELP hw_gpu_memory_total_bytes GPU total memory in bytes".data)
        ("# TYPE hw_gpu_memory_total_bytes gauge".data)
        ("hw_gpu_memory_total_bytes\x7bnode=\"".data) m.node m.gpu_devices
        (fun g => g.memory_total_mb * 1024 * 1024 % 2 ^ 64) ++
      (deviceSection e.gpu_memory_used
        ("# HELP hw_gpu_memory_used_bytes GPU used memory in bytes".data)
        ("# TYPE hw_gpu_memory_used_bytes gauge".data)
        ("hw_gpu_memory_used_bytes\x7bnode=\"".data) m.node m.gpu_devices
        (fun g => g.memory_used_mb * 1024 * 1024 % 2 ^ 64) ++
      (deviceSection e.gpu_memory_free
        ("# HELP hw_gpu_memory_free_bytes GPU free memory in bytes".data)
        ("# TYPE hw_gpu_memory_free_bytes gauge".data)
        ("hw_gpu_memory_free_bytes\x7bnode=\"".data) m.node m.gpu_devices
        (fun g => g.memory_free_mb * 1024 * 1024 % 2 ^ 64) ++
      (deviceSection e.gpu_utilization
        ("# HELP hw_gpu_utilization_percent GPU utilization percentage".data)
        ("# TYPE hw_gpu_utilization_percent gauge".data)
        ("hw_gpu_utilization_percent\x7bnode=\"".data) m.node m.gpu_devices
        (fun g => g.utilization_percent) ++
      (deviceSection e.gpu_temperature
        ("# HELP hw_gpu_temperature_celsius GPU temperature in Celsius".data)
        ("# TYPE hw_gpu_temperature_celsius gauge".data)
        ("hw_gpu_temperature_celsius\x7bnode=\"".data) m.node m.gpu_devices
        (fun g => g.temperature_celsius) ++
      (deviceSection e.gpu_power_draw
        ("# HELP hw_gpu_power_draw_watts GPU power draw in watts".data)
        ("# TYPE hw_gpu_power_draw_watts gauge".data)
        ("hw_gpu_power_draw_watts\x7bnode=\"".data) m.node m.gpu_devices
        (fun g => g.power_draw_watts) ++
      deviceSection e.gpu_power_limit
        ("# HELP hw_gpu_power_limit_watts GPU power limit in watts".data)
        ("# TYPE hw_gpu_power_limit_watts gauge".data)
        ("hw_gpu_power_limit_watts\x7bnode=\"".data) m.node m.gpu_devices
        (fun g => g.power_limit_watts))))))
     else []).filter
      (fun ln => startsWith ln
        (("hw_gpu_memory_total_bytes".data) ++ ['\x7b']))).length
      = m.gpu_devices.length := by
    by_cases hd : m.gpu_devices.isEmpty
    · rw [if_neg (by simp [hd])]
      have : m.gpu_devices = [] := by
        cases hl : m.gpu_devices
        · rfl
        · rw [hl] at hd; cases hd
      rw [this]
      rfl
    · rw [if_pos (by simp [hd])]
      simp only [List.filter_append, List.length_append]
      rw [hf]
      rw [deviceSection_filter_all _ _ _ _ _ _ _ (by decide) (by decide)
        (by decide) (by decide)]
      rw [deviceSection_filter_zero _ _ _ _ _ _ _ _ (by decide) (by decide)
        (by decide) (by decide)]
      rw [deviceSection_filter_zero _ _ _ _ _ _ _ _ (by decide) (by decide)
        (by decide) (by decide)]
      rw [deviceSection_filter_zero _ _ _ _ _ _ _ _ (by decide) (by decide)
        (by decide) (by decide)]
      rw [deviceSection_filter_zero _ _ _ _ _ _ _ _ (by decide) (by decide)
        (by decide) (by decide)]
      rw [deviceSection_filter_zero _ _ _ _ _ _ _ _ (by decide) (by decide)
        (by decide) (by decide)]
      rw [deviceSection_filter_zero _ _ _ _ _ _ _ _ (by decide) (by decide)
        (by decide) (by decide)]
      omega
  rw [hdev]
  omega

theorem countLines_gpu_memory_used (m : NodeMetrics) (e : MetricsEnabled)
    (hnode : '\n' ∉ m.node) (hos : '\n' ∉ m.os_name)
    (hosv : '\n' ∉ m.os_version) (hk : '\n' ∉ m.kernel_version)
    (huuid : ∀ g ∈ m.gpu_devices, '\n' ∉ g.uuid)
    (hf : e.gpu_memory_used = true) :
    countFamilyLines ("hw_gpu_memory_used_bytes".data)
      (m.to_prometheus e) = m.gpu_devices.length := by
  rw [countFamilyLines_to_prometheus m e _ hnode hos hosv hk huuid]
  unfold promChunks
  simp only [List.filter_append, List.length_append]
  rw [infoSection_filter_zero _ m _ (by decide) (by decide) (by decide)
    (by decide)]
  rw [hostSection_filter_zero _ _ _ _ _ _ _ (by decide) (by decide)
    (by decide) (by decide)]
  rw [hostSection_filter_zero _ _ _ _ _ _ _ (by decide) (by decide)
    (by decide) (by decide)]
  rw [hostSection_filter_zero _ _ _ _ _ _ _ (by decide) (by decide)
    (by decide) (by decide)]
  rw [hostSection_filter_zero _ _ _ _ _ _ _ (by decide) (by decide)
    (by decide) (by decide)]
  rw [hostSection_filter_zero _ _ _ _ _ _ _ (by decide) (by decide)
    (by decide) (by decide)]
  rw [hostSection_filter_zero _ _ _ _ _ _ _ (by decide) (by decide)
    (by decide) (by decide)]
  rw [hostSection_filter_zero _ _ _ _ _ _ _ (by decide) (by decide)
    (by decide) (by decide)]
  rw [hostSection_filter_zero _ _ _ _ _ _ _ (by decide) (by decide)
    (by decide) (by decide)]
  rw [hostSection_filter_zero _ _ _ _ _ _ _ (by decide) (by decide)
    (by decide) (by decide)]
  have hblk : ((if m.gpu_count > 0 then
      hostSection e.gpu_count
        ("# HELP hw_gpu_count Total number of GPUs per node".data)
        ("# TYPE hw_gpu_count gauge".data)
        ("hw_gpu_count\x7bnode=\"".data) m.node (natToChars m.gpu_count) ++
      (hostSection e.gpu_used_count
        ("# HELP hw_gpu_used_count Number of GPUs currently in use per node".data)
        ("# TYPE hw_gpu_used_count gauge".data)
        ("hw_gpu_used_count\x7bnode=\"".data) m.node
        (natToChars m.gpu_used_count) ++
      typeSection e.gpu_type_count m.node m.gpu_type_counts)
     else []).filter
      (fun ln => startsWith ln
        (("hw_gpu_memory_used_bytes".data) ++ ['\x7b']))).length = 0 := by
    split
    · simp only [List.filter_append, List.length_append]
      rw [hostSection_filter_zero _ _ _ _ _ _ _ (by decide) (by decide)
        (by decide) (by decide)]
      rw [hostSection_filter_zero _ _ _ _ _ _ _ (by decide) (by decide)
        (by decide) (by decide)]
      rw [typeSection_filter_zero _ _ _ _ (by decide) (by decide)
        (by decide) (by decide)]
    · rfl
  rw [hblk]
  have hdev : ((if !m.gpu_devices.isEmpty then
      deviceSection e.gpu_memory_total
        ("# HELP hw_gpu_memory_total_bytes GPU total memory in bytes".data)
        ("# TYPE hw_gpu_memory_total_bytes gauge".data)
        ("hw_gpu_memory_total_bytes\x7bnode=\"".data) m.node m.gpu_devices
        (fun g => g.memory_total_mb * 1024 * 1024 % 2 ^ 64) ++
      (deviceSection e.gpu_memory_used
        ("# HELP hw_gpu_memory_used_bytes GPU used memory in bytes".data)
        ("# TYPE hw_gpu_memory_used_bytes gauge".data)
        ("hw_gpu_memory_used_bytes\x7bnode=\"".data) m.node m.gpu_devices
        (fun g => g.memory_used_mb * 1024 * 1024 % 2 ^ 64) ++
      (deviceSection e.gpu_memory_free
        ("# HELP hw_gpu_memory_free_bytes GPU free memory in bytes".data)
        ("# TYPE hw_gpu_memory_free_bytes gauge".data)
        ("hw_gpu_memory_free_bytes\x7bnode=\"".data) m.node m.gpu_devices
        (fun g => g.memory_free_mb * 1024 * 1024 % 2 ^ 64) ++
      (deviceSection e.gpu_utilization
        ("# HELP hw_gpu_utilization_percent GPU utilization percentage".data)
        ("# TYPE hw_gpu_utilization_percent gauge".data)
        ("hw_gpu_utilization_percent\x7bnode=\"".data) m.node m.gpu_devices
        (fun g => g.utilization_percent) ++
      (deviceSection e.gpu_temperature
        ("# HELP hw_gpu_temperature_celsius GPU temperature in Celsius".data)
        ("# TYPE hw_gpu_temperature_celsius gauge".data)
        ("hw_gpu_temperature_celsius\x7bnode=\"".data) m.node m.gpu_devices
        (fun g => g.temperature_celsius) ++
      (deviceSection e.gpu_power_draw
        ("# HELP hw_gpu_power_draw_watts GPU power draw in watts".data)
        ("# TYPE hw_gpu_power_draw_watts gauge".data)
        ("hw_gpu_power_draw_watts\x7bnode=\"".data) m.node m.gpu_devices
        (fun g => g.power_draw_watts) ++
      deviceSection e.gpu_power_limit
        ("# HELP hw_gpu_power_limit_watts GPU power limit in watts".data)
        ("# TYPE hw_gpu_power_limit_watts gauge".data)
        ("hw_gpu_power_limit_watts\x7bnode=\"".data) m.node m.gpu_devices
        (fun g => g.power_limit_watts))))))
     else []).filter
      (fun ln => startsWith ln
        (("hw_gpu_memory_used_bytes".data) ++ ['\x7b']))).length
      = m.gpu_devices.length := by
    by_cases hd : m.gpu_devices.isEmpty
    · rw [if_neg (by simp [hd])]
      have : m.gpu_devices = [] := by
        cases hl : m.gpu_devices
        · rfl
        · rw [hl] at hd; cases hd
      rw [this]
      rfl
    · rw [if_pos (by simp [hd])]
      simp only [List.filter_append, List.length_append]
      rw [deviceSection_filter_zero _ _ _ _ _ _ _ _ (by decide) (by decide)
        (by decide) (by decide)]
      rw [hf]
      rw [deviceSection_filter_all _ _ _ _ _ _ _ (by decide) (by decide)
        (by decide) (by decide)]
      rw [deviceSection_filter_zero _ _ _ _ _ _ _ _ (by decide) (by decide)
        (by decide) (by decide)]
      rw [deviceSection_filter_zero _ _ _ _ _ _ _ _ (by decide) (by decide)
        (by decide) (by decide)]
      rw [deviceSection_filter_zero _ _ _ _ _ _ _ _ (by decide) (by decide)
        (by decide) (by decide)]
      rw [deviceSection_filter_zero _ _ _ _ _ _ _ _ (by decide) (by decide)
        (by decide) (by decide)]
      rw [deviceSection_filter_zero _ _ _ _ _ _ _ _ (by decide) (by decide)
        (by decide) (by decide)]
      omega
  rw [hdev]
  omega

theorem countLines_gpu_memory_free (m : NodeMetrics) (e : MetricsEnabled)
    (hnode : '\n' ∉ m.node) (hos : '\n' ∉ m.os_name)
    (hosv : '\n' ∉ m.os_version) (hk : '\n' ∉ m.kernel_version)
    (huuid : ∀ g ∈ m.gpu_devices, '\n' ∉ g.uuid)
    (hf : e.gpu_memory_free = true) :
    countFamilyLines ("hw_gpu_memory_free_bytes".data)
      (m.to_prometheus e) = m.gpu_devices.length := by
  rw [countFamilyLines_to_prometheus m e _ hnode hos hosv hk huuid]
  unfold promChunks
  simp only [List.filter_append, List.length_append]
  rw [infoSection_filter_zero _ m _ (by decide) (by decide) (by decide)
    (by decide)]
  rw [hostSection_filter_zero _ _ _ _ _ _ _ (by decide) (by decide)
    (by decide) (by decide)]
  rw [hostSection_filter_zero _ _ _ _ _ _ _ (by decide) (by decide)
    (by decide) (by decide)]
  rw [hostSection_filter_zero _ _ _ _ _ _ _ (by decide) (by decide)
    (by decide) (by decide)]
  rw [hostSection_filter_zero _ _ _ _ _ _ _ (by decide) (by decide)
    (by decide) (by decide)]
  rw [hostSection_filter_zero _ _ _ _ _ _ _ (by decide) (by decide)
    (by decide) (by decide)]
  rw [hostSection_filter_zero _ _ _ _ _ _ _ (by decide) (by decide)
    (by decide) (by decide)]
  rw [hostSection_filter_zero _ _ _ _ _ _ _ (by decide) (by decide)
    (by decide) (by decide)]
  rw [hostSection_filter_zero _ _ _ _ _ _ _ (by decide) (by decide)
    (by decide) (by decide)]
  rw [hostSection_filter_zero _ _ _ _ _ _ _ (by decide) (by decide)
    (by decide) (by decide)]
  have hblk : ((if m.gpu_count > 0 then
      hostSection e.gpu_count
        ("# HELP hw_gpu_count Total number of GPUs per node".data)
        ("# TYPE hw_gpu_count gauge".data)
        ("hw_gpu_count\x7bnode=\"".data) m.node (natToChars m.gpu_count) ++
      (hostSection e.gpu_used_count
        ("# HELP hw_gpu_used_count Number of GPUs currently in use per node".data)
        ("# TYPE hw_gpu_used_count gauge".data)
        ("hw_gpu_used_count\x7bnode=\"".data) m.node
        (natToChars m.gpu_used_count) ++
      typeSection e.gpu_type_count m.node m.gpu_type_counts)
     else []).filter
      (fun ln => startsWith ln
        (("hw_gpu_memory_free_bytes".data) ++ ['\x7b']))).length = 0 := by
    split
    · simp only [List.filter_append, List.length_append]
      rw [hostSection_filter_zero _ _ _ _ _ _ _ (by decide) (by decide)
        (by decide) (by decide)]
      rw [hostSection_filter_zero _ _ _ _ _ _ _ (by decide) (by decide)
        (by decide) (by decide)]
      rw [typeSection_filter_zero _ _ _ _ (by decide) (by decide)
        (by decide) (by decide)]
    · rfl
  rw [hblk]
  have hdev : ((if !m.gpu_devices.isEmpty then
      deviceSection e.gpu_memory_total
        ("# HELP hw_gpu_memory_total_bytes GPU total memory in bytes".data)
        ("# TYPE hw_gpu_memory_total_bytes gauge".data)
        ("hw_gpu_memory_total_bytes\x7bnode=\"".data) m.node m.gpu_devices
        (fun g => g.memory_total_mb * 1024 * 1024 % 2 ^ 64) ++
      (deviceSection e.gpu_memory_used
        ("# HELP hw_gpu_memory_used_bytes GPU used memory in bytes".data)
        ("# TYPE hw_gpu_memory_used_bytes gauge".data)
        ("hw_gpu_memory_used_bytes\x7bnode=\"".data) m.node m.gpu_devices
        (fun g => g.memory_used_mb * 1024 * 1024 % 2 ^ 64) ++
      (deviceSection e.gpu_memory_free
        ("# HELP hw_gpu_memory_free_bytes GPU free memory in bytes".data)
        ("# TYPE hw_gpu_memory_free_bytes gauge".data)
        ("hw_gpu_memory_free_bytes\x7bnode=\"".data) m.node m.gpu_devices
        (fun g => g.memory_free_mb * 1024 * 1024 % 2 ^ 64) ++
      (deviceSection e.gpu_utilization
        ("# HELP hw_gpu_utilization_percent GPU utilization percentage".data)
        ("# TYPE hw_gpu_utilization_percent gauge".data)
        ("hw_gpu_utilization_percent\x7bnode=\"".data) m.node m.gpu_devices
        (fun g => g.utilization_percent) ++
      (deviceSection e.gpu_temperature
        ("# HELP hw_gpu_temperature_celsius GPU temperature in Celsius".data)
        ("# TYPE hw_gpu_temperature_celsius gauge".data)
        ("hw_gpu_temperature_celsius\x7bnode=\"".data) m.node m.gpu_devices
        (fun g => g.temperature_celsius) ++
      (deviceSection e.gpu_power_draw
        ("# HELP hw_gpu_power_draw_watts GPU power draw in watts".data)
        ("# TYPE hw_gpu_power_draw_watts gauge".data)
        ("hw_gpu_power_draw_watts\x7bnode=\"".data) m.node m.gpu_devices
        (fun g => g.power_draw_watts) ++
      deviceSection e.gpu_power_limit
        ("# HELP hw_gpu_power_limit_watts GPU power limit in watts".data)
        ("# TYPE hw_gpu_power_limit_watts gauge".data)
        ("hw_gpu_power_limit_watts\x7bnode=\"".data) m.node m.gpu_devices
        (fun g => g.power_limit_watts))))))
     else []).filter
      (fun ln => startsWith ln
        (("hw_gpu_memory_free_bytes".data) ++ ['\x7b']))).length
      = m.gpu_devices.length := by
    by_cases hd : m.gpu_devices.isEmpty
    · rw [if_neg (by simp [hd])]
      have : m.gpu_devices = [] := by
        cases hl : m.gpu_devices
        · rfl
        · rw [hl] at hd; cases hd
      rw [this]
      rfl
    · rw [if_pos (by simp [hd])]
      simp only [List.filter_append, List.length_append]
      rw [deviceSection_filter_zero _ _ _ _ _ _ _ _ (by decide) (by decide)
        (by decide) (by decide)]
      rw [deviceSection_filter_zero _ _ _ _ _ _ _ _ (by decide) (by decide)
        (by decide) (by decide)]
      rw [hf]
      rw [deviceSection_filter_all _ _ _ _ _ _ _ (by decide) (by decide)
        (by decide) (by decide)]
      rw [deviceSection_filter_zero _ _ _ _ _ _ _ _ (by decide) (by decide)
        (by decide) (by decide)]
      rw [deviceSection_filter_zero _ _ _ _ _ _ _ _ (by decide) (by decide)
        (by decide) (by decide)]
      rw [deviceSection_filter_zero _ _ _ _ _ _ _ _ (by decide) (by decide)
        (by decide) (by decide)]
      rw [deviceSection_filter_zero _ _ _ _ _ _ _ _ (by decide) (by decide)
        (by decide) (by decide)]
      omega
  rw [hdev]
  omega

theorem countLines_gpu_temperature (m : NodeMetrics) (e : MetricsEnabled)
    (hnode : '\n' ∉ m.node) (hos : '\n' ∉ m.os_name)
    (hosv : '\n' ∉ m.os_version) (hk : '\n' ∉ m.kernel_version)
    (huuid : ∀ g ∈ m.gpu_devices, '\n' ∉ g.uuid)
    (hf : e.gpu_temperature = true) :
    countFamilyLines ("hw_gpu_temperature_celsius".data)
      (m.to_prometheus e) = m.gpu_devices.length := by
  rw [countFamilyLines_to_prometheus m e _ hnode hos hosv hk huuid]
  unfold promChunks
  simp only [List.filter_append, List.length_append]
  rw [infoSection_filter_zero _ m _ (by decide) (by decide) (by decide)
    (by decide)]
  rw [hostSection_filter_zero _ _ _ _ _ _ _ (by decide) (by decide)
    (by decide) (by decide)]
  rw [hostSection_filter_zero _ _ _ _ _ _ _ (by decide) (by decide)
    (by decide) (by decide)]
  rw [hostSection_filter_zero _ _ _ _ _ _ _ (by decide) (by decide)
    (by decide) (by decide)]
  rw [hostSection_filter_zero _ _ _ _ _ _ _ (by decide) (by decide)
    (by decide) (by decide)]
  rw [hostSection_filter_zero _ _ _ _ _ _ _ (by decide) (by decide)
    (by decide) (by decide)]
  rw [hostSection_filter_zero _ _ _ _ _ _ _ (by decide) (by decide)
    (by decide) (by decide)]
  rw [hostSection_filter_zero _ _ _ _ _ _ _ (by decide) (by decide)
    (by decide) (by decide)]
  rw [hostSection_filter_zero _ _ _ _ _ _ _ (by decide) (by decide)
    (by decide) (by decide)]
  rw [hostSection_filter_zero _ _ _ _ _ _ _ (by decide) (by decide)
    (by decide) (by decide)]
  have hblk : ((if m.gpu_count > 0 then
      hostSection e.gpu_count
        ("# HELP hw_gpu_count Total number of GPUs per node".data)
        ("# TYPE hw_gpu_count gauge".data)
        ("hw_gpu_count\x7bnode=\"".data) m.node (natToChars m.gpu_count) ++
      (hostSection e.gpu_used_count
        ("# HELP hw_gpu_used_count Number of GPUs currently in use per node".data)
        ("# TYPE hw_gpu_used_count gauge".data)
        ("hw_gpu_used_count\x7bnode=\"".data) m.node
        (natToChars m.gpu_used_count) ++
      typeSection e.gpu_type_count m.node m.gpu_type_counts)
     else []).filter
      (fun ln => startsWith ln
        (("hw_gpu_temperature_celsius".data) ++ ['\x7b']))).length = 0 := by
    split
    · simp only [List.filter_append, List.length_append]
      rw [hostSection_filter_zero _ _ _ _ _ _ _ (by decide) (by decide)
        (by decide) (by decide)]
      rw [hostSection_filter_zero _ _ _ _ _ _ _ (by decide) (by decide)
        (by decide) (by decide)]
      rw [typeSection_filter_zero _ _ _ _ (by decide) (by decide)
        (by decide) (by decide)]
    · rfl
  rw [hblk]
  have hdev : ((if !m.gpu_devices.isEmpty then
      deviceSection e.gpu_memory_total
        ("# HELP hw_gpu_memory_total_bytes GPU total memory in bytes".data)
        ("# TYPE hw_gpu_memory_total_bytes gauge".data)
        ("hw_gpu_memory_total_bytes\x7bnode=\"".data) m.node m.gpu_devices
        (fun g => g.memory_total_mb * 1024 * 1024 % 2 ^ 64) ++
      (deviceSection e.gpu_memory_used
        ("# HELP hw_gpu_memory_used_bytes GPU used memory in bytes".data)
        ("# TYPE hw_gpu_memory_used_bytes gauge".data)
        ("hw_gpu_memory_used_bytes\x7bnode=\"".data) m.node m.gpu_devices
        (fun g => g.memory_used_mb * 1024 * 1024 % 2 ^ 64) ++
      (deviceSection e.gpu_memory_free
        ("# HELP hw_gpu_memory_free_bytes GPU free memory in bytes".data)
        ("# TYPE hw_gpu_memory_free_bytes gauge".data)
        ("hw_gpu_memory_free_bytes\x7bnode=\"".data) m.node m.gpu_devices
        (fun g => g.memory_free_mb * 1024 * 1024 % 2 ^ 64) ++
      (deviceSection e.gpu_utilization
        ("# HELP hw_gpu_utilization_percent GPU utilization percentage".data)
        ("# TYPE hw_gpu_utilization_percent gauge".data)
        ("hw_gpu_utilization_percent\x7bnode=\"".data) m.node m.gpu_devices
        (fun g => g.utilization_percent) ++
      (deviceSection e.gpu_temperature
        ("# HELP hw_gpu_temperature_celsius GPU temperature in Celsius".data)
        ("# TYPE hw_gpu_temperature_celsius gauge".data)
        ("hw_gpu_temperature_celsius\x7bnode=\"".data) m.node m.gpu_devices
        (fun g => g.temperature_celsius) ++
      (deviceSection e.gpu_power_draw
        ("# HELP hw_gpu_power_draw_watts GPU power draw in watts".data)
        ("# TYPE hw_gpu_power_draw_watts gauge".data)
        ("hw_gpu_power_draw_watts\x7bnode=\"".data) m.node m.gpu_devices
        (fun g => g.power_draw_watts) ++
      deviceSection e.gpu_power_limit
        ("# HELP hw_gpu_power_limit_watts GPU power limit in watts".data)
        ("# TYPE hw_gpu_power_limit_watts gauge".data)
        ("hw_gpu_power_limit_watts\x7bnode=\"".data) m.node m.gpu_devices
        (fun g => g.power_limit_watts))))))
     else []).filter
      (fun ln => startsWith ln
        (("hw_gpu_temperature_celsius".data) ++ ['\x7b']))).length
      = m.gpu_devices.length := by
    by_cases hd : m.gpu_devices.isEmpty
    · rw [if_neg (by simp [hd])]
      have : m.gpu_devices = [] := by
        cases hl : m.gpu_devices
        · rfl
        · rw [hl] at hd; cases hd
      rw [this]
      rfl
    · rw [if_pos (by simp [hd])]
      simp only [List.filter_append, List.length_append]
      rw [deviceSection_filter_zero _ _ _ _ _ _ _ _ (by decide) (by decide)
        (by decide) (by decide)]
      rw [deviceSection_filter_zero _ _ _ _ _ _ _ _ (by decide) (by decide)
        (by decide) (by decide)]
      rw [deviceSection_filter_zero _ _ _ _ _ _ _ _ (by decide) (by decide)
        (by decide) (by decide)]
      rw [deviceSection_filter_zero _ _ _ _ _ _ _ _ (by decide) (by decide)
        (by decide) (by decide)]
      rw [hf]
      rw [deviceSection_filter_all _ _ _ _ _ _ _ (by decide) (by decide)
        (by decide) (by decide)]
      rw [deviceSection_filter_zero _ _ _ _ _ _ _ _ (by decide) (by decide)
        (by decide) (by decide)]
      rw [deviceSection_filter_zero _ _ _ _ _ _ _ _ (by decide) (by decide)
        (by decide) (by decide)]
      omega
  rw [hdev]
  omega

theorem countLines_gpu_power_draw (m : NodeMetrics) (e : MetricsEnabled)
    (hnode : '\n' ∉ m.node) (hos : '\n' ∉ m.os_name)
    (hosv : '\n' ∉ m.os_version) (hk : '\n' ∉ m.kernel_version)
    (huuid : ∀ g ∈ m.gpu_devices, '\n' ∉ g.uuid)
    (hf : e.gpu_power_draw = true) :
    countFamilyLines ("hw_gpu_power_draw_watts".data)
      (m.to_prometheus e) = m.gpu_devices.length := by
  rw [countFamilyLines_to_prometheus m e _ hnode hos hosv hk huuid]
  unfold promChunks
  simp only [List.filter_append, List.length_append]
  rw [infoSection_filter_zero _ m _ (by decide) (by decide) (by decide)
    (by decide)]
  rw [hostSection_filter_zero _ _ _ _ _ _ _ (by decide) (by decide)
    (by decide) (by decide)]
  rw [hostSection_filter_zero _ _ _ _ _ _ _ (by decide) (by decide)
    (by decide) (by decide)]
  rw [hostSection_filter_zero _ _ _ _ _ _ _ (by decide) (by decide)
    (by decide) (by decide)]
  rw [hostSection_filter_zero _ _ _ _ _ _ _ (by decide) (by decide)
    (by decide) (by decide)]
  rw [hostSection_filter_zero _ _ _ _ _ _ _ (by decide) (by decide)
    (by decide) (by decide)]
  rw [hostSection_filter_zero _ _ _ _ _ _ _ (by decide) (by decide)
    (by decide) (by decide)]
  rw [hostSection_filter_zero _ _ _ _ _ _ _ (by decide) (by decide)
    (by decide) (by decide)]
  rw [hostSection_filter_zero _ _ _ _ _ _ _ (by decide) (by decide)
    (by decide) (by decide)]
  rw [hostSection_filter_zero _ _ _ _ _ _ _ (by decide) (by decide)
    (by decide) (by decide)]
  have hblk : ((if m.gpu_count > 0 then
      hostSection e.gpu_count
        ("# HELP hw_gpu_count Total number of GPUs per node".data)
        ("# TYPE hw_gpu_count gauge".data)
        ("hw_gpu_count\x7bnode=\"".data) m.node (natToChars m.gpu_count) ++
      (hostSection e.gpu_used_count
        ("# HELP hw_gpu_used_count Number of GPUs currently in use per node".data)
        ("# TYPE hw_gpu_used_count gauge".data)
        ("hw_gpu_used_count\x7bnode=\"".data) m.node
        (natToChars m.gpu_used_count) ++
      typeSection e.gpu_type_count m.node m.gpu_type_counts)
     else []).filter
      (fun ln => startsWith ln
        (("hw_gpu_power_draw_watts".data) ++ ['\x7b']))).length = 0 := by
    split
    · simp only [List.filter_append, List.length_append]
      rw [hostSection_filter_zero _ _ _ _ _ _ _ (by decide) (by decide)
        (by decide) (by decide)]
      rw [hostSection_filter_zero _ _ _ _ _ _ _ (by decide) (by decide)
        (by decide) (by decide)]
      rw [typeSection_filter_zero _ _ _ _ (by decide) (by decide)
        (by decide) (by decide)]
    · rfl
  rw [hblk]
  have hdev : ((if !m.gpu_devices.isEmpty then
      deviceSection e.gpu_memory_total
        ("# HELP hw_gpu_memory_total_bytes GPU total memory in bytes".data)
        ("# TYPE hw_gpu_memory_total_bytes gauge".data)
        ("hw_gpu_memory_total_bytes\x7bnode=\"".data) m.node m.gpu_devices
        (fun g => g.memory_total_mb * 1024 * 1024 % 2 ^ 64) ++
      (deviceSection e.gpu_memory_used
        ("# HELP hw_gpu_memory_used_bytes GPU used memory in bytes".data)
        ("# TYPE hw_gpu_memory_used_bytes gauge".data)
        ("hw_gpu_memory_used_bytes\x7bnode=\"".data) m.node m.gpu_devices
        (fun g => g.memory_used_mb * 1024 * 1024 % 2 ^ 64) ++
      (deviceSection e.gpu_memory_free
        ("# HELP hw_gpu_memory_free_bytes GPU free memory in bytes".data)
        ("# TYPE hw_gpu_memory_free_bytes gauge".data)
        ("hw_gpu_memory_free_bytes\x7bnode=\"".data) m.node m.gpu_devices
        (fun g => g.memory_free_mb * 1024 * 1024 % 2 ^ 64) ++
      (deviceSection e.gpu_utilization
        ("# HELP hw_gpu_utilization_percent GPU utilization percentage".data)
        ("# TYPE hw_gpu_utilization_percent gauge".data)
        ("hw_gpu_utilization_percent\x7bnode=\"".data) m.node m.gpu_devices
        (fun g => g.utilization_percent) ++
      (deviceSection e.gpu_temperature
        ("# HELP hw_gpu_temperature_celsius GPU temperature in Celsius".data)
        ("# TYPE hw_gpu_temperature_celsius gauge".data)
        ("hw_gpu_temperature_celsius\x7bnode=\"".data) m.node m.gpu_devices
        (fun g => g.temperature_celsius) ++
      (deviceSection e.gpu_power_draw
        ("# HELP hw_gpu_power_draw_watts GPU power draw in watts".data)
        ("# TYPE hw_gpu_power_draw_watts gauge".data)
        ("hw_gpu_power_draw_watts\x7bnode=\"".data) m.node m.gpu_devices
        (fun g => g.power_draw_watts) ++
      deviceSection e.gpu_power_limit
        ("# HELP hw_gpu_power_limit_watts GPU power limit in watts".data)
        ("# TYPE hw_gpu_power_limit_watts gauge".data)
        ("hw_gpu_power_limit_watts\x7bnode=\"".data) m.node m.gpu_devices
        (fun g => g.power_limit_watts))))))
     else []).filter
      (fun ln => startsWith ln
        (("hw_gpu_power_draw_watts".data) ++ ['\x7b']))).length
      = m.gpu_devices.length := by
    by_cases hd : m.gpu_devices.isEmpty
    · rw [if_neg (by simp [hd])]
      have : m.gpu_devices = [] := by
        cases hl : m.gpu_devices
        · rfl
        · rw [hl] at hd; cases hd
      rw [this]
      rfl
    · rw [if_pos (by simp [hd])]
      simp only [List.filter_append, List.length_append]
      rw [deviceSection_filter_zero _ _ _ _ _ _ _ _ (by decide) (by decide)
        (by decide) (by decide)]
      rw [deviceSection_filter_zero _ _ _ _ _ _ _ _ (by decide) (by decide)
        (by decide) (by decide)]
      rw [deviceSection_filter_zero _ _ _ _ _ _ _ _ (by decide) (by decide)
        (by decide) (by decide)]
      rw [deviceSection_filter_zero _ _ _ _ _ _ _ _ (by decide) (by decide)
        (by decide) (by decide)]
      rw [deviceSection_filter_zero _ _ _ _ _ _ _ _ (by decide) (by decide)
        (by decide) (by decide)]
      rw [hf]
      rw [deviceSection_filter_all _ _ _ _ _ _ _ (by decide) (by decide)
        (by decide) (by decide)]
      rw [deviceSection_filter_zero _ _ _ _ _ _ _ _ (by decide) (by decide)
        (by decide) (by decide)]
      omega
  rw [hdev]
  omega

theorem countLines_gpu_power_limit (m : NodeMetrics) (e : MetricsEnabled)
    (hnode : '\n' ∉ m.node) (hos : '\n' ∉ m.os_name)
    (hosv : '\n' ∉ m.os_version) (hk : '\n' ∉ m.kernel_version)
    (huuid : ∀ g ∈ m.gpu_devices, '\n' ∉ g.uuid)
    (hf : e.gpu_power_limit = true) :
    countFamilyLines ("hw_gpu_power_limit_watts".data)
      (m.to_prometheus e) = m.gpu_devices.length := by
  rw [countFamilyLines_to_prometheus m e _ hnode hos hosv hk huuid]
  unfold promChunks
  simp only [List.filter_append, List.length_append]
  rw [infoSection_filter_zero _ m _ (by decide) (by decide) (by decide)
    (by decide)]
  rw [hostSection_filter_zero _ _ _ _ _ _ _ (by decide) (by decide)
    (by decide) (by decide)]
  rw [hostSection_filter_zero _ _ _ _ _ _ _ (by decide) (by decide)
    (by decide) (by decide)]
  rw [hostSection_filter_zero _ _ _ _ _ _ _ (by decide) (by decide)
    (by decide) (by decide)]
  rw [hostSection_filter_zero _ _ _ _ _ _ _ (by decide) (by decide)
    (by decide) (by decide)]
  rw [hostSection_filter_zero _ _ _ _ _ _ _ (by decide) (by decide)
    (by decide) (by decide)]
  rw [hostSection_filter_zero _ _ _ _ _ _ _ (by decide) (by decide)
    (by decide) (by decide)]
  rw [hostSection_filter_zero _ _ _ _ _ _ _ (by decide) (by decide)
    (by decide) (by decide)]
  rw [hostSection_filter_zero _ _ _ _ _ _ _ (by decide) (by decide)
    (by decide) (by decide)]
  rw [hostSection_filter_zero _ _ _ _ _ _ _ (by decide) (by decide)
    (by decide) (by decide)]
  have hblk : ((if m.gpu_count > 0 then
      hostSection e.gpu_count
        ("# HELP hw_gpu_count Total number of GPUs per node".data)
        ("# TYPE hw_gpu_count gauge".data)
        ("hw_gpu_count\x7bnode=\"".data) m.node (natToChars m.gpu_count) ++
      (hostSection e.gpu_used_count
        ("# HELP hw_gpu_used_count Number of GPUs currently in use per node".data)
        ("# TYPE hw_gpu_used_count gauge".data)
        ("hw_gpu_used_count\x7bnode=\"".data) m.node
        (natToChars m.gpu_used_count) ++
      typeSection e.gpu_type_count m.node m.gpu_type_counts)
     else []).filter
      (fun ln => startsWith ln
        (("hw_gpu_power_limit_watts".data) ++ ['\x7b']))).length = 0 := by
    split
    · simp only [List.filter_append, List.length_append]
      rw [hostSection_filter_zero _ _ _ _ _ _ _ (by decide) (by decide)
        (by decide) (by decide)]
      rw [hostSection_filter_zero _ _ _ _ _ _ _ (by decide) (by decide)
        (by decide) (by decide)]
      rw [typeSection_filter_zero _ _ _ _ (by decide) (by decide)
        (by decide) (by decide)]
    · rfl
  rw [hblk]
  have hdev : ((if !m.gpu_devices.isEmpty then
      deviceSection e.gpu_memory_total
        ("# HELP hw_gpu_memory_total_bytes GPU total memory in bytes".data)
        ("# TYPE hw_gpu_memory_total_bytes gauge".data)
        ("hw_gpu_memory_total_bytes\x7bnode=\"".data) m.node m.gpu_devices
        (fun g => g.memory_total_mb * 1024 * 1024 % 2 ^ 64) ++
      (deviceSection e.gpu_memory_used
        ("# HELP hw_gpu_memory_used_bytes GPU used memory in bytes".data)
        ("# TYPE hw_gpu_memory_used_bytes gauge".data)
        ("hw_gpu_memory_used_bytes\x7bnode=\"".data) m.node m.gpu_devices
        (fun g => g.memory_used_mb * 1024 * 1024 % 2 ^ 64) ++
      (deviceSection e.gpu_memory_free
        ("# HELP hw_gpu_memory_free_bytes GPU free memory in bytes".data)
        ("# TYPE hw_gpu_memory_free_bytes gauge".data)
        ("hw_gpu_memory_free_bytes\x7bnode=\"".data) m.node m.gpu_devices
        (fun g => g.memory_free_mb * 1024 * 1024 % 2 ^ 64) ++
      (deviceSection e.gpu_utilization
        ("# HELP hw_gpu_utilization_percent GPU utilization percentage".data)
        ("# TYPE hw_gpu_utilization_percent gauge".data)
        ("hw_gpu_utilization_percent\x7bnode=\"".data) m.node m.gpu_devices
        (fun g => g.utilization_percent) ++
      (deviceSection e.gpu_temperature
        ("# HELP hw_gpu_temperature_celsius GPU temperature in Celsius".data)
        ("# TYPE hw_gpu_temperature_celsius gauge".data)
        ("hw_gpu_temperature_celsius\x7bnode=\"".data) m.node m.gpu_devices
        (fun g => g.temperature_celsius) ++
      (deviceSection e.gpu_power_draw
        ("# HELP hw_gpu_power_draw_watts GPU power draw in watts".data)
        ("# TYPE hw_gpu_power_draw_watts gauge".data)
        ("hw_gpu_power_draw_watts\x7bnode=\"".data) m.node m.gpu_devices
        (fun g => g.power_draw_watts) ++
      deviceSection e.gpu_power_limit
        ("# HELP hw_gpu_power_limit_watts GPU power limit in watts".data)
        ("# TYPE hw_gpu_power_limit_watts gauge".data)
        ("hw_gpu_power_limit_watts\x7bnode=\"".data) m.node m.gpu_devices
        (fun g => g.power_limit_watts))))))
     else []).filter
      (fun ln => startsWith ln
        (("hw_gpu_power_limit_watts".data) ++ ['\x7b']))).length
      = m.gpu_devices.length := by
    by_cases hd : m.gpu_devices.isEmpty
    · rw [if_neg (by simp [hd])]
      have : m.gpu_devices = [] := by
        cases hl : m.gpu_devices
        · rfl
        · rw [hl] at hd; cases hd
      rw [this]
      rfl
    · rw [if_pos (by simp [hd])]
      simp only [List.filter_append, List.length_append]
      rw [deviceSection_filter_zero _ _ _ _ _ _ _ _ (by decide) (by decide)
        (by decide) (by decide)]
      rw [deviceSection_filter_zero _ _ _ _ _ _ _ _ (by decide) (by decide)
        (by decide) (by decide)]
      rw [deviceSection_filter_zero _ _ _ _ _ _ _ _ (by decide) (by decide)
        (by decide) (by decide)]
      rw [deviceSection_filter_zero _ _ _ _ _ _ _ _ (by decide) (by decide)
        (by decide) (by decide)]
      rw [deviceSection_filter_zero _ _ _ _ _ _ _ _ (by decide) (by decide)
        (by decide) (by decide)]
      rw [deviceSection_filter_zero _ _ _ _ _ _ _ _ (by decide) (by decide)
        (by decide) (by decide)]
      rw [hf]
      rw [deviceSection_filter_all _ _ _ _ _ _ _ (by decide) (by decide)
        (by decide) (by decide)]
      omega
  rw [hdev]
  omega

/-! Claim theorems. -/

/-- C3: the single input line
0, Tesla T4, GPU-abc123, 16384 MiB, 2048 MiB, 14336 MiB, 23 %, 45,
70.50 W, 70.00 W parses to exactly one record with the stated fields;
in particular the power fields parse as floating point and truncate to
70 integer watts. -/
theorem c3_parse_scenario :
    parse_nvidia_smi_output
      (("0, Tesla T4, GPU-abc123, 16384 MiB, 2048 MiB, 14336 MiB, 23 %, 45, 70.50 W, 70.00 W").data)
      = [gT4] ∧
    parse_watts_value (("70.50 W").data) = 70 ∧
    parse_watts_value (("70.00 W").data) = 70 := by
  refine ⟨by decide, by decide, by decide⟩

/-- C4: a line with at least ten comma-separated fields always parses
to exactly one record, in which every component is computed from its
own field alone, the numeric components defaulting to zero exactly
when their own parse rule fails. -/
theorem c4_line_parser_total (l : List Char)
    (h : 10 ≤ (lineFields l).length) :
    parseLine l = some {
      index := (parseUInt 32 ((lineFields l).getD 0 [])).getD 0
      name := (lineFields l).getD 1 []
      uuid := (lineFields l).getD 2 []
      memory_total_mb := parse_mib_value ((lineFields l).getD 3 [])
      memory_used_mb := parse_mib_value ((lineFields l).getD 4 [])
      memory_free_mb := parse_mib_value ((lineFields l).getD 5 [])
      utilization_percent := parse_percent_value ((lineFields l).getD 6 [])
      temperature_celsius := parse_int_value ((lineFields l).getD 7 [])
      power_draw_watts := parse_watts_value ((lineFields l).getD 8 [])
      power_limit_watts := parse_watts_value ((lineFields l).getD 9 []) } := by
  have h1 : ((trim l).isEmpty) ≠ true := by
    intro he
    have ht : trim l = [] := by
      cases hc : trim l
      · rfl
      · rw [hc] at he; cases he
    have : (lineFields l).length = 1 := by
      unfold lineFields
      rw [ht]
      rfl
    omega
  have h2 : ¬ ((lineFields l).length < 10) := Nat.not_lt.mpr h
  unfold parseLine
  rw [if_neg h1, if_neg h2]

/-- C4 witness: the theorem applied to a concrete ten-field line with
one malformed numeric field. -/
theorem c4_line_parser_total_witness :
    parseLine (("7, GeForce, GPU-x, 10 MiB, bad, 3 MiB, 4 %, 5, 6.5 W, oops").data)
      = some { index := 7, name := ("GeForce".data), uuid := ("GPU-x".data),
               memory_total_mb := 10, memory_used_mb := 0,
               memory_free_mb := 3, utilization_percent := 4,
               temperature_celsius := 5, power_draw_watts := 6,
               power_limit_watts := 0 } :=
  (c4_line_parser_total
    (("7, GeForce, GPU-x, 10 MiB, bad, 3 MiB, 4 %, 5, 6.5 W, oops").data)
    (by decide)).trans (by decide)

/-- C7: the output of the parser on any multi-line input equals its
output with every line of fewer than ten fields deleted: a short line
contributes zero records and leaves the records of the other lines
unchanged. -/
theorem c7_short_lines_skipped (out : List Char) :
    parse_nvidia_smi_output out
      = ((linesOf out).filter
          (fun l => decide (10 ≤ (lineFields l).length))).filterMap
          parseLine := by
  unfold parse_nvidia_smi_output
  have key : ∀ ls : List (List Char),
      ls.filterMap parseLine
        = (ls.filter
            (fun l => decide (10 ≤ (lineFields l).length))).filterMap
            parseLine := by
    intro ls
    induction ls with
    | nil => rfl
    | cons x xs ih =>
      by_cases hx : 10 ≤ (lineFields x).length
      · rw [List.filter_cons_of_pos (by simp [hx])]
        rw [List.filterMap_cons, List.filterMap_cons, ih]
      · rw [List.filter_cons_of_neg (by simp [hx])]
        have hnone : parseLine x = none := by
          unfold parseLine
          by_cases he : (trim x).isEmpty = true
          · rw [if_pos he]
          · rw [if_neg he, if_pos (Nat.not_le.mp hx)]
        rw [List.filterMap_cons, hnone, ih]
  exact key (linesOf out)

/-- C5: on a successful active-workload query the used-device count is
the number of devices whose uuid occurs in the returned identifier
set, hence never exceeds the device count (identifiers matching no
device are ignored); on a failed query the count is zero; and the
spec scenario: an empty query result with two known devices gives
count zero. -/
theorem c5_used_count (gpu_devices : List GpuInfo) (out : List Char) :
    get_gpu_used_count gpu_devices (some out)
        = ((gpu_devices.map (fun g => g.uuid)).filter
            (fun u => (usedUuids out).contains u)).length ∧
    get_gpu_used_count gpu_devices (some out) ≤ gpu_devices.length ∧
    get_gpu_used_count gpu_devices none = 0 ∧
    get_gpu_used_count [gA, gB] (some []) = 0 ∧
    (∀ (outP : List Char) (cache : GpuCache) (now : Nat),
      parse_nvidia_smi_output outP ≠ [] →
      (collect_gpu_info true true (some outP) none now cache).1
        = (parse_nvidia_smi_output outP,
           typeCounts (parse_nvidia_smi_output outP), 0)) := by
  refine ⟨?_, ?_, rfl, by decide, ?_⟩
  · show (gpu_devices.filter
        (fun g => (usedUuids out).contains g.uuid)).length = _
    rw [List.filter_map, List.length_map]
    rfl
  · exact List.length_filter_le _ _
  · intro outP cache now hp
    have hne : (parse_nvidia_smi_output outP).isEmpty = false := by
      cases hc : parse_nvidia_smi_output outP
      · exact absurd hc hp
      · rfl
    unfold collect_gpu_info
    rw [if_neg (by decide), if_neg (by decide)]
    simp [hne, get_gpu_used_count]

/-- C5 witness: the failed-workload-query conjunct applied to the
concrete one-device output. -/
theorem c5_used_count_witness :
    (collect_gpu_info true true
      (some (("0, Tesla T4, GPU-abc123, 16384 MiB, 2048 MiB, 14336 MiB, 23 %, 45, 70.50 W, 70.00 W").data))
      none 0 (GpuCache.init 0)).1
      = ([gT4], [(("Tesla T4").data, 1)], 0) :=
  ((c5_used_count [] []).2.2.2.2
    (("0, Tesla T4, GPU-abc123, 16384 MiB, 2048 MiB, 14336 MiB, 23 %, 45, 70.50 W, 70.00 W").data)
    (GpuCache.init 0) 0 (by decide)).trans (by decide)

/-- C8: with a never-populated cache, a cache read gives the empty
device list, empty type counts and used count zero as an ordinary
value, and a cycle that falls back to the cache returns that empty
result and leaves the cache untouched. -/
theorem c8_empty_cache (cache : GpuCache) (w : Option (List Char))
    (now : Nat) (h : cache.devices = []) :
    get_cached_gpu_info cache = ([], [], 0) ∧
    collect_gpu_info true true none w now cache = (([], [], 0), cache) := by
  have h1 : get_cached_gpu_info cache = ([], [], 0) := by
    unfold get_cached_gpu_info
    rw [if_pos (by simp [h])]
  exact ⟨h1, by simp [collect_gpu_info, h1]⟩

/-- C8 witness: the theorem applied to the initial cache value. -/
theorem c8_empty_cache_witness :
    get_cached_gpu_info (GpuCache.init 5) = ([], [], 0) ∧
    collect_gpu_info true true none none 7 (GpuCache.init 5)
      = (([], [], 0), GpuCache.init 5) :=
  c8_empty_cache (GpuCache.init 5) none 7 rfl

/-- C10: formatting one snapshot value twice yields byte-identical
text; in the embedding to_prometheus is a pure function of the
snapshot and the enable matrix, so the two renders coincide. -/
theorem c10_format_deterministic (m : NodeMetrics) (e : MetricsEnabled) :
    (renderTwice m e).1 = (renderTwice m e).2 := rfl

theorem hasSentinel_of_mem_bracket (s : List Char) (h : '[' ∈ s) :
    hasSentinel s = true := by
  unfold hasSentinel
  rw [show (("[").data : List Char) = ['['] from rfl,
    containsSub_of_mem '[' s h, Bool.or_true]

/-- C6: a utilization, temperature or power field that is the N/A
sentinel or contains an opening bracket (so in particular any
bracketed value such as a bracketed N/A) parses to zero, and a full
line whose utilization field is a bracketed N/A parses to the normal
record with only utilization_percent zeroed. -/
theorem c6_sentinel_fields_zero :
    (∀ s : List Char, (s = (("N/A").data) ∨ '[' ∈ s) →
      parse_percent_value s = 0 ∧ parse_int_value s = 0 ∧
        parse_watts_value s = 0) ∧
    parse_nvidia_smi_output
      (("0, Tesla T4, GPU-abc123, 16384 MiB, 2048 MiB, 14336 MiB, [N/A], 45, 70.50 W, 70.00 W").data)
      = [{ gT4 with utilization_percent := 0 }] := by
  constructor
  · intro s hs
    rcases hs with rfl | hbr
    · exact ⟨by decide, by decide, by decide⟩
    · refine ⟨?_, ?_, ?_⟩
      · have h1 : '[' ∈ percentStripped s := by
          unfold percentStripped
          apply mem_replaceSub_del
          · apply mem_replaceSub_del
            · exact mem_trim '[' s hbr (by decide)
            · decide
          · decide
        unfold parse_percent_value
        rw [hasSentinel_of_mem_bracket _ h1]
        rfl
      · have h1 : '[' ∈ trim s := mem_trim '[' s hbr (by decide)
        unfold parse_int_value
        rw [hasSentinel_of_mem_bracket _ h1]
        rfl
      · have h1 : '[' ∈ wattsStripped s := by
          unfold wattsStripped
          apply mem_replaceSub_del
          · exact mem_trim '[' s hbr (by decide)
          · decide
        unfold parse_watts_value
        rw [hasSentinel_of_mem_bracket _ h1]
        rfl
  · decide

/-- C6 witness: the first part of the theorem applied to the bracketed
N/A field. -/
theorem c6_sentinel_fields_zero_witness :
    parse_percent_value (("[N/A]").data) = 0 ∧
    parse_int_value (("[N/A]").data) = 0 ∧
    parse_watts_value (("[N/A]").data) = 0 :=
  c6_sentinel_fields_zero.1 (("[N/A]").data) (Or.inr (by decide))

/-- C2: after a successful acquisition cycle (primary query output
parsing to at least one record) at time t0, two consecutive cycles
whose primary query fails both return exactly the successful cycle's
device list, type counts and used count, leave the cache entry
untouched, and the cache still carries the capture time t0 of the
successful cycle. -/
theorem c2_cache_written_only_on_success (cache0 : GpuCache)
    (outS : List Char) (w w1 w2 : Option (List Char)) (t0 t1 t2 : Nat)
    (hparse : parse_nvidia_smi_output outS ≠ []) :
    ∀ res0 cache1,
      collect_gpu_info true true (some outS) w t0 cache0
        = (res0, cache1) →
      collect_gpu_info true true none w1 t1 cache1 = (res0, cache1) ∧
      collect_gpu_info true true none w2 t2 cache1 = (res0, cache1) ∧
      cache1.last_update = t0 ∧ cache1.last_success = true := by
  intro res0 cache1 h0
  have hne : (parse_nvidia_smi_output outS).isEmpty = false := by
    cases hp : parse_nvidia_smi_output outS
    · exact absurd hp hparse
    · rfl
  unfold collect_gpu_info at h0
  simp only [Bool.not_true, hne] at h0
  rw [if_neg (by decide), if_neg (by decide), if_neg (by decide)] at h0
  injection h0 with ha hb
  subst ha
  subst hb
  have hcached : get_cached_gpu_info
      { devices := parse_nvidia_smi_output outS,
        type_counts := typeCounts (parse_nvidia_smi_output outS),
        used_count := get_gpu_used_count (parse_nvidia_smi_output outS) w,
        last_update := t0, last_success := true }
      = (parse_nvidia_smi_output outS,
         typeCounts (parse_nvidia_smi_output outS),
         get_gpu_used_count (parse_nvidia_smi_output outS) w) := by
    unfold get_cached_gpu_info
    rw [if_neg (by simp [hne])]
  refine ⟨?_, ?_, rfl, rfl⟩ <;>
    · unfold collect_gpu_info
      rw [if_neg (by decide), if_neg (by decide), hcached]

/-- C2 witness: the theorem applied to a concrete one-device output
with an initially empty cache. -/
theorem c2_cache_written_only_on_success_witness :
    collect_gpu_info true true none none 2
      { devices := [gT4], type_counts := [(("Tesla T4").data, 1)],
        used_count := 0, last_update := 1, last_success := true }
      = (([gT4], [(("Tesla T4").data, 1)], 0),
         { devices := [gT4], type_counts := [(("Tesla T4").data, 1)],
           used_count := 0, last_update := 1, last_success := true }) ∧
    collect_gpu_info true true none none 3
      { devices := [gT4], type_counts := [(("Tesla T4").data, 1)],
        used_count := 0, last_update := 1, last_success := true }
      = (([gT4], [(("Tesla T4").data, 1)], 0),
         { devices := [gT4], type_counts := [(("Tesla T4").data, 1)],
           used_count := 0, last_update := 1, last_success := true }) ∧
    GpuCache.last_update
      { devices := [gT4], type_counts := [(("Tesla T4").data, 1)],
        used_count := 0, last_update := 1, last_success := true } = 1 ∧
    GpuCache.last_success
      { devices := [gT4], type_counts := [(("Tesla T4").data, 1)],
        used_count := 0, last_update := 1, last_success := true } = true :=
  c2_cache_written_only_on_success (GpuCache.init 0)
    (("0, Tesla T4, GPU-abc123, 16384 MiB, 2048 MiB, 14336 MiB, 23 %, 45, 70.50 W, 70.00 W").data)
    none none none 1 2 3 (by decide)
    ([gT4], [(("Tesla T4").data, 1)], 0)
    { devices := [gT4], type_counts := [(("Tesla T4").data, 1)],
      used_count := 0, last_update := 1, last_success := true }
    (by decide)

/-- C1 counterexample: with node = x"y and only the uptime metric
enabled, the exposition text embeds the label value with its double
quote unescaped (the full output is the literal below, whose label
reads node="x"y"), and the escaped form of the value does not occur
anywhere in the output. -/
theorem c1_node_label_unescaped :
    NodeMetrics.to_prometheus mQuote eUptimeOnly
      = (("# HELP hw_node_uptime_seconds Node uptime in seconds\n# TYPE hw_node_uptime_seconds counter\nhw_node_uptime_seconds\x7bnode=\"x\"y\"\x7d 0\n").data) ∧
    containsSub (("node=\"x\"y\"").data)
      (NodeMetrics.to_prometheus mQuote eUptimeOnly) = true ∧
    containsSub (escape_label_value (("x\"y").data))
      (NodeMetrics.to_prometheus mQuote eUptimeOnly) = false := by
  refine ⟨by decide, by decide, by decide⟩

/-- C1 amended: only the cpu_model, gpu_name and gpu_type label values
go through escape_label_value; node, os, os_version, kernel and
gpu_uuid are embedded verbatim. With only hw_node_info enabled the
formatter emits exactly the HELP line, the TYPE line and one sample
line in which cpu_model appears escaped and node, os, os_version and
kernel appear verbatim; with the seven per-device families enabled it
emits, per family, the HELP line, the TYPE line and one sample line
per device in which gpu_name appears escaped while node and gpu_uuid
appear verbatim; with only hw_gpu_type_count enabled every sample line
carries its gpu_type key escaped and node verbatim; and escaping
really does handle backslash, double quote and newline, so an escaped
value never contains a raw newline. -/
theorem c1_only_model_name_type_escaped (m : NodeMetrics) :
    promChunks m eNodeInfoOnly
      = [("# HELP hw_node_info Node hardware information").data,
         ("# TYPE hw_node_info gauge").data,
         ("hw_node_info\x7bnode=\"").data ++ m.node ++ ("\",os=\"").data ++
           m.os_name ++ ("\",os_version=\"").data ++ m.os_version ++
           ("\",kernel=\"").data ++ m.kernel_version ++
           ("\",cpu_model=\"").data ++ escape_label_value m.cpu_model ++
           ("\"\x7d 1").data] ∧
    promChunks m eDevice7
      = (if m.gpu_devices.isEmpty then [] else
          ("# HELP hw_gpu_memory_total_bytes GPU total memory in bytes").data ::
          ("# TYPE hw_gpu_memory_total_bytes gauge").data ::
          m.gpu_devices.map (fun g =>
            ("hw_gpu_memory_total_bytes\x7bnode=\"").data ++ m.node ++
              ("\",gpu_index=\"").data ++ natToChars g.index ++
              ("\",gpu_name=\"").data ++ escape_label_value g.name ++
              ("\",gpu_uuid=\"").data ++ g.uuid ++ ("\"\x7d ").data ++
              natToChars (g.memory_total_mb * 1024 * 1024 % 2 ^ 64)) ++
          ("# HELP hw_gpu_memory_used_bytes GPU used memory in bytes").data ::
          ("# TYPE hw_gpu_memory_used_bytes gauge").data ::
          m.gpu_devices.map (fun g =>
            ("hw_gpu_memory_used_bytes\x7bnode=\"").data ++ m.node ++
              ("\",gpu_index=\"").data ++ natToChars g.index ++
              ("\",gpu_name=\"").data ++ escape_label_value g.name ++
              ("\",gpu_uuid=\"").data ++ g.uuid ++ ("\"\x7d ").data ++
              natToChars (g.memory_used_mb * 1024 * 1024 % 2 ^ 64)) ++
          ("# HELP hw_gpu_memory_free_bytes GPU free memory in bytes").data ::
          ("# TYPE hw_gpu_memory_free_bytes gauge").data ::
          m.gpu_devices.map (fun g =>
            ("hw_gpu_memory_free_bytes\x7bnode=\"").data ++ m.node ++
              ("\",gpu_index=\"").data ++ natToChars g.index ++
              ("\",gpu_name=\"").data ++ escape_label_value g.name ++
              ("\",gpu_uuid=\"").data ++ g.uuid ++ ("\"\x7d ").data ++
              natToChars (g.memory_free_mb * 1024 * 1024 % 2 ^ 64)) ++
          ("# HELP hw_gpu_utilization_percent GPU utilization percentage").data ::
          ("# TYPE hw_gpu_utilization_percent gauge").data ::
          m.gpu_devices.map (fun g =>
            ("hw_gpu_utilization_percent\x7bnode=\"").data ++ m.node ++
              ("\",gpu_index=\"").data ++ natToChars g.index ++
              ("\",gpu_name=\"").data ++ escape_label_value g.name ++
              ("\",gpu_uuid=\"").data ++ g.uuid ++ ("\"\x7d ").data ++
              natToChars g.utilization_percent) ++
          ("# HELP hw_gpu_temperature_celsius GPU temperature in Celsius").data ::
          ("# TYPE hw_gpu_temperature_celsius gauge").data ::
          m.gpu_devices.map (fun g =>
            ("hw_gpu_temperature_celsius\x7bnode=\"").data ++ m.node ++
              ("\",gpu_index=\"").data ++ natToChars g.index ++
              ("\",gpu_name=\"").data ++ escape_label_value g.name ++
              ("\",gpu_uuid=\"").data ++ g.uuid ++ ("\"\x7d ").data ++
              natToChars g.temperature_celsius) ++
          ("# HELP hw_gpu_power_draw_watts GPU power draw in watts").data ::
          ("# TYPE hw_gpu_power_draw_watts gauge").data ::
          m.gpu_devices.map (fun g =>
            ("hw_gpu_power_draw_watts\x7bnode=\"").data ++ m.node ++
              ("\",gpu_index=\"").data ++ natToChars g.index ++
              ("\",gpu_name=\"").data ++ escape_label_value g.name ++
              ("\",gpu_uuid=\"").data ++ g.uuid ++ ("\"\x7d ").data ++
              natToChars g.power_draw_watts) ++
          ("# HELP hw_gpu_power_limit_watts GPU power limit in watts").data ::
          ("# TYPE hw_gpu_power_limit_watts gauge").data ::
          m.gpu_devices.map (fun g =>
            ("hw_gpu_power_limit_watts\x7bnode=\"").data ++ m.node ++
              ("\",gpu_index=\"").data ++ natToChars g.index ++
              ("\",gpu_name=\"").data ++ escape_label_value g.name ++
              ("\",gpu_uuid=\"").data ++ g.uuid ++ ("\"\x7d ").data ++
              natToChars g.power_limit_watts)) ∧
    promChunks m eTypeOnly
      = (if m.gpu_count > 0 then
          ("# HELP hw_gpu_type_count Number of GPUs by type per node").data ::
          ("# TYPE hw_gpu_type_count gauge").data ::
          m.gpu_type_counts.map (fun kv =>
            ("hw_gpu_type_count\x7bnode=\"").data ++ m.node ++
              ("\",gpu_type=\"").data ++ escape_label_value kv.1 ++
              ("\"\x7d ").data ++ natToChars kv.2)
         else []) ∧
    (∀ e : MetricsEnabled, NodeMetrics.to_prometheus m e
      = ((promChunks m e).map (fun c => c ++ ['\n'])).flatten) ∧
    '\n' ∉ escape_label_value m.cpu_model ∧
    (∀ s : List Char, '\n' ∉ escape_label_value s) ∧
    escape_label_value (("a\\b\"c\nd").data) = (("a\\\\b\\\"c\\nd").data) := by
  refine ⟨?_, ?_, ?_, fun _ => rfl, escape_no_nl m.cpu_model,
    escape_no_nl, by decide⟩
  · simp [promChunks, hostSection, typeSection, deviceSection,
      eNodeInfoOnly, eAllOff, nodeInfoChunk, List.append_assoc]
  · by_cases hd : m.gpu_devices.isEmpty <;>
      simp [promChunks, hostSection, typeSection, deviceSection,
        deviceChunk, eDevice7, eAllOff, hd, List.append_assoc]
  · by_cases hg : m.gpu_count > 0 <;>
      simp [promChunks, hostSection, typeSection, deviceSection,
        typeCountChunk, eTypeOnly, eAllOff, hg, List.append_assoc]

/-- C9 counterexample: a snapshot with a single device whose uuid
contains a newline and a forged sample line makes the exposition text
contain two lines that begin hw_gpu_utilization_percent even though
the snapshot has one device and the family is enabled. -/
theorem c9_injected_uuid_counterexample :
    mInj.gpu_devices.length = 1 ∧ eUtilOnly.gpu_utilization = true ∧
    countFamilyLines (("hw_gpu_utilization_percent").data)
      (mInj.to_prometheus eUtilOnly) = 2 := by
  refine ⟨by decide, by decide, by decide⟩

/-- C9 amended: for every snapshot whose node name, OS name and
version, kernel version and device uuids contain no newline (these
are the label values embedded without escaping; the remaining
embedded values are escaped or numeric), every enabled per-device
metric family contributes exactly one sample line per device to the
exposition text. -/
theorem c9_sample_lines_per_family (m : NodeMetrics) (e : MetricsEnabled)
    (hnode : '\n' ∉ m.node) (hos : '\n' ∉ m.os_name)
    (hosv : '\n' ∉ m.os_version) (hk : '\n' ∉ m.kernel_version)
    (huuid : ∀ g ∈ m.gpu_devices, '\n' ∉ g.uuid) :
    (e.gpu_memory_total = true →
      countFamilyLines (("hw_gpu_memory_total_bytes").data)
        (m.to_prometheus e) = m.gpu_devices.length) ∧
    (e.gpu_memory_used = true →
      countFamilyLines (("hw_gpu_memory_used_bytes").data)
        (m.to_prometheus e) = m.gpu_devices.length) ∧
    (e.gpu_memory_free = true →
      countFamilyLines (("hw_gpu_memory_free_bytes").data)
        (m.to_prometheus e) = m.gpu_devices.length) ∧
    (e.gpu_utilization = true →
      countFamilyLines (("hw_gpu_utilization_percent").data)
        (m.to_prometheus e) = m.gpu_devices.length) ∧
    (e.gpu_temperature = true →
      countFamilyLines (("hw_gpu_temperature_celsius").data)
        (m.to_prometheus e) = m.gpu_devices.length) ∧
    (e.gpu_power_draw = true →
      countFamilyLines (("hw_gpu_power_draw_watts").data)
        (m.to_prometheus e) = m.gpu_devices.length) ∧
    (e.gpu_power_limit = true →
      countFamilyLines (("hw_gpu_power_limit_watts").data)
        (m.to_prometheus e) = m.gpu_devices.length) :=
  ⟨countLines_gpu_memory_total m e hnode hos hosv hk huuid,
   countLines_gpu_memory_used m e hnode hos hosv hk huuid,
   countLines_gpu_memory_free m e hnode hos hosv hk huuid,
   countLines_gpu_utilization m e hnode hos hosv hk huuid,
   countLines_gpu_temperature m e hnode hos hosv hk huuid,
   countLines_gpu_power_draw m e hnode hos hosv hk huuid,
   countLines_gpu_power_limit m e hnode hos hosv hk huuid⟩

/-- C9 witness: the amended statement applied to a well-formed
one-device snapshot with the seven per-device families enabled. -/
theorem c9_sample_lines_per_family_witness :
    countFamilyLines (("hw_gpu_memory_total_bytes").data)
      (mT4.to_prometheus eDevice7) = mT4.gpu_devices.length ∧
    countFamilyLines (("hw_gpu_memory_used_bytes").data)
      (mT4.to_prometheus eDevice7) = mT4.gpu_devices.length ∧
    countFamilyLines (("hw_gpu_memory_free_bytes").data)
      (mT4.to_prometheus eDevice7) = mT4.gpu_devices.length ∧
    countFamilyLines (("hw_gpu_utilization_percent").data)
      (mT4.to_prometheus eDevice7) = mT4.gpu_devices.length ∧
    countFamilyLines (("hw_gpu_temperature_celsius").data)
      (mT4.to_prometheus eDevice7) = mT4.gpu_devices.length ∧
    countFamilyLines (("hw_gpu_power_draw_watts").data)
      (mT4.to_prometheus eDevice7) = mT4.gpu_devices.length ∧
    countFamilyLines (("hw_gpu_power_limit_watts").data)
      (mT4.to_prometheus eDevice7) = mT4.gpu_devices.length := by
  have h := c9_sample_lines_per_family mT4 eDevice7 (by decide) (by decide)
    (by decide) (by decide) (by decide)
  exact ⟨h.1 rfl, h.2.1 rfl, h.2.2.1 rfl, h.2.2.2.1 rfl,
    h.2.2.2.2.1 rfl, h.2.2.2.2.2.1 rfl, h.2.2.2.2.2.2 rfl⟩

end SysInfo
